import Mathlib

/-!
Verification of `tfglib/seq2seq_datatable.py` (class `Seq2SeqDatatable`).

Matrices (numpy 2-D arrays) are embedded as lists of rows of rationals.
Fatal runtime failures (failed `assert`s, numpy negative-dimension errors,
out-of-range indexing) are embedded as `Option.none`.
-/

namespace Tfglib

/-- A numpy 2-D array: rows are frames, row entries are channels. -/
abbrev Mat := List (List ℚ)

/-- All rows of `A` have length `w` (the array is rectangular of width `w`). -/
def isMat (w : ℕ) (A : Mat) : Prop := ∀ r ∈ A, r.length = w

instance (w : ℕ) (A : Mat) : Decidable (isMat w A) :=
  List.decidableBAll _ A

/-- `np.zeros((r, w))`. -/
def zerosMat (r w : ℕ) : Mat := List.replicate r (List.replicate w 0)

/-- `np.ones((r, w))`. -/
def onesMat (r w : ℕ) : Mat := List.replicate r (List.replicate w 1)

/-- The column count (`shape[1]`) of a matrix, read from its first row. -/
def matWidth (A : Mat) : ℕ := (A.headD []).length

/-- Column `j` of a matrix (out-of-range entries read as 0; the data in all
claims is rectangular, so the default is never reached there). -/
def colAt (j : ℕ) (A : Mat) : List ℚ := A.map fun r => r.getD j 0

/-- `np.concatenate((A, B), axis=1)` for blocks of equal row count. -/
def hconcat (A B : Mat) : Mat := List.zipWith (· ++ ·) A B

/-- `np.concatenate(blocks, axis=1)`. -/
def hconcatAll : List Mat → Mat
  | [] => []
  | A :: rest => rest.foldl hconcat A

/-- Modelled from the spec: `tfglib.utils.kronecker_delta` (its source file is
not provided).  Indicator that a raw voicing value equals the designated
unvoiced sentinel (0); the voiced flag is `1 - kronecker_delta value`. -/
def kronecker_delta (x : ℚ) : ℚ := if x = 0 then 1 else 0

/-- Modelled from the spec: `tfglib.zero_pad.zero_pad_params` (its source file
is not provided).  Pads a parameter matrix with zero rows up to `length` rows:
front-padding for mode `"src"`, end-padding for mode `"trg"`. -/
def zero_pad_params (length : ℕ) (mode : String) (params : Mat) : Mat :=
  let pad := zerosMat (length - params.length) (matWidth params)
  if mode = "src" then pad ++ params else params ++ pad

/-- Modelled from the spec: keras' `to_categorical` one-hot encoder (an
external collaborator).  A one-hot row of width `classes` with the 1 at
position `i`. -/
def to_categorical_row (classes i : ℕ) : List ℚ :=
  (List.range classes).map fun j => if j = i then 1 else 0

/-- `to_categorical(i * np.ones((rows,)), classes)`: `rows` copies of the
one-hot row for `i`. -/
def to_categorical (i rows classes : ℕ) : Mat :=
  List.replicate rows (to_categorical_row classes i)

/-- The five parameter streams `parse_file` returns for one speaker/utterance:
`mcp` (width 40), `lf0` and interpolated `lf0` (width 1), `vf` and
interpolated `vf` (width 1). -/
structure SideFiles where
  mcp : Mat
  f0 : Mat
  f0_i : Mat
  vf : Mat
  vf_i : Mat

/-- `source_voiced` / `target_voiced`: per frame, `1 - kronecker_delta(vf)`. -/
def voicedFlag (vf : Mat) : Mat :=
  vf.map fun r => r.map fun v => 1 - kronecker_delta v

/-- End-of-sequence flag: `np.zeros(vf.shape)` with the last row
(`[-1, :]`) set to 1. -/
def eosFlag (vf : Mat) : Mat :=
  zerosMat (vf.length - 1) (matWidth vf) ++ [List.replicate (matWidth vf) 1]

/-- The source tensor: the seven zero-padded source blocks concatenated
column-wise, as in `seq2seq_build_file_table`. -/
def sourceParams (L si ti : ℕ) (src : SideFiles) : Mat :=
  hconcatAll
    [zero_pad_params L "src" src.mcp,
     zero_pad_params L "src" src.f0_i,
     zero_pad_params L "src" src.vf_i,
     zero_pad_params L "src" (voicedFlag src.vf),
     zero_pad_params L "src" (eosFlag src.vf),
     zero_pad_params L "src" (to_categorical si src.vf.length 10),
     zero_pad_params L "src" (to_categorical ti src.vf.length 10)]

/-- The target tensor: the five zero-padded target blocks concatenated
column-wise, as in `seq2seq_build_file_table`. -/
def targetParams (L : ℕ) (trg : SideFiles) : Mat :=
  hconcatAll
    [zero_pad_params L "trg" trg.mcp,
     zero_pad_params L "trg" trg.f0_i,
     zero_pad_params L "trg" trg.vf_i,
     zero_pad_params L "trg" (voicedFlag trg.vf),
     zero_pad_params L "trg" (eosFlag trg.vf)]

/-- `Seq2SeqDatatable.seq2seq_build_file_table` with `self.max_seq_length = L`.
`none` embeds the fatal failures, in the order they occur in the method body:
the two `assert vf.shape == f0.shape` checks (parse_file's width contract
makes the shapes' widths both 1, so shape equality is row-count equality),
the `IndexError` from `eos_flag[-1, :]` on an empty stream, the keras
`to_categorical` index bound (10 one-hot classes), and the numpy
negative-dimension errors raised by `np.zeros((L - rows, 1))` in the mask
constructions and inside `zero_pad_params` when a stream is longer than `L`.
On success it returns (source tensor, source mask, target tensor, target
mask); the masks are front- resp. end-padded exactly as in the source. -/
def seq2seq_build_file_table (L : ℕ) (src : SideFiles) (si : ℕ)
    (trg : SideFiles) (ti : ℕ) : Option (Mat × Mat × Mat × Mat) :=
  if src.vf.length ≠ src.f0.length then none
  else if trg.vf.length ≠ trg.f0.length then none
  else if src.vf.length = 0 then none
  else if trg.vf.length = 0 then none
  else if 10 ≤ si then none
  else if 10 ≤ ti then none
  else if L < src.mcp.length then none
  else if L < trg.mcp.length then none
  else if L < src.f0_i.length ∨ L < src.vf_i.length ∨ L < src.vf.length then none
  else if L < trg.f0_i.length ∨ L < trg.vf_i.length ∨ L < trg.vf.length then none
  else
    some (sourceParams L si ti src,
          zerosMat (L - src.mcp.length) 1 ++ onesMat src.mcp.length 1,
          targetParams L trg,
          onesMat trg.mcp.length 1 ++ zerosMat (L - trg.mcp.length) 1)

/-- Modelled from the spec: `tfglib.seq2seq_normalize.mask_data` (its source
file is not provided).  Masks out the zero-padded rows: the rows whose mask
entry is 1 are the ones visible to the subsequent masked extremum
computation. -/
def mask_data (params : Mat) (mask : Mat) : Mat :=
  (params.zip mask).filterMap fun rm => if rm.2.headD 0 = 1 then some rm.1 else none

/-- `np.ma.max(..., axis=0)`: per-column maximum over the unmasked rows. -/
def colMax : Mat → List ℚ
  | [] => []
  | r :: rs => rs.foldl (List.zipWith max) r

/-- `np.ma.min(..., axis=0)`: per-column minimum over the unmasked rows. -/
def colMin : Mat → List ℚ
  | [] => []
  | r :: rs => rs.foldl (List.zipWith min) r

/-- The mutable state of `seq2seq_construct_datatable`'s loop nest: the four
growing datatable/mask lists and the running speaker statistics. -/
structure FoldState where
  srcTable : List Mat
  trgTable : List Mat
  srcMasks : List Mat
  trgMasks : List Mat
  spkMax : Mat
  spkMin : Mat

/-- The float literal `1e+50` used to initialize `spk_min`. -/
def sentinel : ℚ := 100000000000000000000000000000000000000000000000000

/-- `spk_max = np.zeros((10, 42))`, `spk_min = 1e+50 * np.ones((10, 42))`,
and the four datatables start empty. -/
def initState : FoldState :=
  { srcTable := [], trgTable := [], srcMasks := [], trgMasks := [],
    spkMax := zerosMat 10 42,
    spkMin := List.replicate 10 (List.replicate 42 sentinel) }

/-- The iteration order of the loop nest: source-speaker ordinal ascending,
then target-speaker ordinal ascending, then utterance position in order. -/
def tripleList (S U : ℕ) : List (ℕ × ℕ × ℕ) :=
  (List.range S).flatMap fun i =>
    (List.range S).flatMap fun j =>
      (List.range U).map fun k => (i, j, k)

/-- One iteration of `seq2seq_construct_datatable`'s loop body for the triple
`tr = (src_index, trg_index, basename index)`: build the file table, update
`spk_max[src_index]` / `spk_min[src_index]` from the masked first 42 columns
of the source tensor, and append the tensors and masks.  `none` embeds a
failing `seq2seq_build_file_table` call, an `np.ma` extremum over a fully
masked array, and a failing `np.maximum` broadcast (column extrema not of
width 42). -/
def foldStep (L : ℕ) (speakers basenames : List String)
    (files : String → String → SideFiles) (st : FoldState)
    (tr : ℕ × ℕ × ℕ) : Option FoldState :=
  (seq2seq_build_file_table L
      (files (speakers.getD tr.1 "") (basenames.getD tr.2.2 "")) tr.1
      (files (speakers.getD tr.2.1 "") (basenames.getD tr.2.2 "")) tr.2.1).bind
    fun out =>
      let masked := mask_data (out.1.map (List.take 42)) out.2.1
      if masked = [] ∨ (colMax masked).length ≠ 42 then none
      else
        some { srcTable := st.srcTable ++ [out.1],
               trgTable := st.trgTable ++ [out.2.2.1],
               srcMasks := st.srcMasks ++ [out.2.1],
               trgMasks := st.trgMasks ++ [out.2.2.2],
               spkMax := st.spkMax.set tr.1
                 (List.zipWith max (st.spkMax.getD tr.1 []) (colMax masked)),
               spkMin := st.spkMin.set tr.1
                 (List.zipWith min (st.spkMin.getD tr.1 []) (colMin masked)) }

/-- `Seq2SeqDatatable.seq2seq_construct_datatable` with
`self.max_seq_length = L`.  `enumerate` over the speakers/basenames lists is
embedded as indexing over their ranges; `files speaker basename` stands for
the five parameter files parsed from `data_dir/vocoded_s2s/<speaker>/`.
The per-triple stacked masks of shape `(L, 1)` are reshaped into rows of
length `L` (`np.array(...).reshape(-1, max_seq_length)`). -/
def seq2seq_construct_datatable (L : ℕ) (speakers basenames : List String)
    (files : String → String → SideFiles) :
    Option (List Mat × Mat × List Mat × Mat × Mat × Mat) :=
  ((tripleList speakers.length basenames.length).foldlM
      (foldStep L speakers basenames files) initState).map fun st =>
    (st.srcTable, st.srcMasks.map List.flatten,
     st.trgTable, st.trgMasks.map List.flatten,
     st.spkMax, st.spkMin)

/-- The contents of the persisted `.h5` container: the four stacked arrays as
datasets and the three attributes. -/
structure H5Data where
  src_datatable : List Mat
  trg_datatable : List Mat
  src_mask : Mat
  trg_mask : Mat
  max_seq_length : ℤ
  speakers_max : Mat
  speakers_min : Mat

/-- The filesystem visible to h5py, as a map from path to container. -/
abbrev FileSystem := String → Option H5Data

/-- `seq2seq_save_datatable`'s write:
`h5py.File(self.datatable_file + '.h5', 'w')` creates the container at the
path `datatable_file ++ ".h5"` holding the four datasets and the three
attributes. -/
def seq2seq_save_datatable (fs : FileSystem) (datatable_file : String)
    (d : H5Data) : FileSystem :=
  fun name => if name = datatable_file ++ ".h5" then some d else fs name

/-- `seq2seq2_load_datatable`'s read:
`h5py.File(self.datatable_file, 'r')` opens the path `datatable_file`
exactly (no extension is appended) and returns its contents; `none` embeds
the `OSError` raised when no file exists at that path. -/
def seq2seq2_load_datatable (fs : FileSystem) (datatable_file : String) :
    Option H5Data :=
  fs datatable_file

/-- `Seq2SeqDatatable.find_longest_sequence`: the largest frame count over
all (speaker, basename) pairs; `frameCount speaker basename` stands for
`parse_file(1, ...lf0.dat).shape[0]`. -/
def find_longest_sequence (speakers basenames : List String)
    (frameCount : String → String → ℕ) : ℕ :=
  speakers.foldl
    (fun acc s =>
      basenames.foldl
        (fun acc2 b => if frameCount s b > acc2 then frameCount s b else acc2)
        acc)
    0

/-- The state of a constructed `Seq2SeqDatatable` instance.
`config_warning` records that the caught `AssertionError` message about
`max_seq_length` was printed; `scanned` records whether
`find_longest_sequence` was invoked; `max_seq_length` is `none` when the
attribute holds a non-integer value (e.g. Python `None`). -/
structure Seq2SeqDatatable where
  config_warning : Bool
  speakers : List String
  basenames : List String
  scanned : Bool
  max_seq_length : Option ℤ

/-- `Seq2SeqDatatable.__init__`.  The assertion
`(shortseq is True and type(max_seq_length) == int) or (shortseq is False)`
is wrapped in `try/except AssertionError` whose handler only prints a
message, so a failure sets `config_warning` and execution continues: the
speakers and basenames files are parsed (their stripped lines are
`speakersLines` / `basenamesLines`) and `self.max_seq_length` is assigned —
the given value (possibly non-integer) when `shortseq`, otherwise the
scanned longest sequence length. -/
def Seq2SeqDatatable.init (shortseq : Bool) (max_seq_length : Option ℤ)
    (speakersLines basenamesLines : List String)
    (frameCount : String → String → ℕ) : Seq2SeqDatatable :=
  { config_warning := shortseq && !max_seq_length.isSome,
    speakers := speakersLines,
    basenames := basenamesLines,
    scanned := !shortseq,
    max_seq_length :=
      if shortseq then max_seq_length
      else some (find_longest_sequence speakersLines basenamesLines frameCount) }

/-- Well-formed parse results for one side with `m` frames: the five streams
have `m` rows each and the widths of `parse_file`'s contract (40 for mcp,
1 for the pitch/voicing streams). -/
def SideOK (m : ℕ) (f : SideFiles) : Prop :=
  f.mcp.length = m ∧ isMat 40 f.mcp ∧
  f.f0.length = m ∧ isMat 1 f.f0 ∧
  f.f0_i.length = m ∧ isMat 1 f.f0_i ∧
  f.vf.length = m ∧ isMat 1 f.vf ∧
  f.vf_i.length = m ∧ isMat 1 f.vf_i

instance (m : ℕ) (f : SideFiles) : Decidable (SideOK m f) := by
  unfold SideOK
  infer_instance

/-- Pointwise `≤` between matrices of identical shape. -/
def matLE (A B : Mat) : Prop :=
  List.Forall₂ (List.Forall₂ (· ≤ ·)) A B

/-! ### Basic shape lemmas -/

lemma isMat_append {w : ℕ} {A B : Mat} (hA : isMat w A) (hB : isMat w B) :
    isMat w (A ++ B) := by
  intro r hr
  rcases List.mem_append.mp hr with h | h
  · exact hA r h
  · exact hB r h

lemma isMat_zerosMat (r w : ℕ) : isMat w (zerosMat r w) := by
  intro x hx
  rw [List.eq_of_mem_replicate hx]
  exact List.length_replicate _ _

lemma isMat_onesMat (r w : ℕ) : isMat w (onesMat r w) := by
  intro x hx
  rw [List.eq_of_mem_replicate hx]
  exact List.length_replicate _ _

lemma length_zerosMat (r w : ℕ) : (zerosMat r w).length = r :=
  List.length_replicate _ _

lemma length_onesMat (r w : ℕ) : (onesMat r w).length = r :=
  List.length_replicate _ _

lemma matWidth_of_isMat {w : ℕ} {A : Mat} (h : isMat w A) (hne : A ≠ []) :
    matWidth A = w := by
  cases A with
  | nil => exact absurd rfl hne
  | cons r rs => exact h r (List.mem_cons_self _ _)

lemma zero_pad_src (L : ℕ) (P : Mat) :
    zero_pad_params L "src" P = zerosMat (L - P.length) (matWidth P) ++ P := by
  simp [zero_pad_params]

lemma zero_pad_trg (L : ℕ) (P : Mat) :
    zero_pad_params L "trg" P = P ++ zerosMat (L - P.length) (matWidth P) := by
  simp [zero_pad_params]

lemma length_zero_pad {L : ℕ} (mode : String) {P : Mat} (h : P.length ≤ L) :
    (zero_pad_params L mode P).length = L := by
  unfold zero_pad_params
  by_cases hm : mode = "src" <;> simp [hm, length_zerosMat] <;> omega

lemma isMat_zero_pad {w L : ℕ} (mode : String) {P : Mat} (h : isMat w P)
    (hne : P ≠ []) : isMat w (zero_pad_params L mode P) := by
  have hw : matWidth P = w := matWidth_of_isMat h hne
  unfold zero_pad_params
  by_cases hm : mode = "src" <;>
    simp only [hm, if_pos, if_neg, reduceIte] <;>
    [exact isMat_append (hw ▸ isMat_zerosMat _ _) h;
     exact isMat_append h (hw ▸ isMat_zerosMat _ _)]

/-! ### Lemmas about column-wise concatenation -/

lemma length_hconcat (A B : Mat) :
    (hconcat A B).length = min A.length B.length := by
  simp [hconcat]

lemma isMat_hconcat {w1 w2 : ℕ} :
    ∀ {A B : Mat}, isMat w1 A → isMat w2 B → isMat (w1 + w2) (hconcat A B) := by
  intro A
  induction A with
  | nil => intro B _ _ r hr; simp [hconcat] at hr
  | cons a as ih =>
    intro B hA hB r hr
    cases B with
    | nil => simp [hconcat] at hr
    | cons b bs =>
      simp only [hconcat, List.zipWith_cons_cons, List.mem_cons] at hr
      rcases hr with rfl | hr
      · rw [List.length_append, hA a (by simp), hB b (by simp)]
      · exact ih (fun x hx => hA x (by simp [hx]))
          (fun x hx => hB x (by simp [hx])) r hr

lemma colAt_hconcat_of_lt {w : ℕ} {j : ℕ} (hj : j < w) :
    ∀ {A B : Mat}, isMat w A → B.length = A.length →
      colAt j (hconcat A B) = colAt j A := by
  intro A
  induction A with
  | nil => intro B _ hl; simp [colAt, hconcat]
  | cons a as ih =>
    intro B hA hl
    cases B with
    | nil => simp at hl
    | cons b bs =>
      simp only [hconcat, List.zipWith_cons_cons, colAt, List.map_cons]
      congr 1
      · exact List.getD_append _ _ _ _ (by rw [hA a (by simp)]; exact hj)
      · exact ih (fun x hx => hA x (by simp [hx])) (by simpa using hl)

lemma colAt_hconcat_of_le {w : ℕ} {j : ℕ} (hj : w ≤ j) :
    ∀ {A B : Mat}, isMat w A → B.length = A.length →
      colAt j (hconcat A B) = colAt (j - w) B := by
  intro A
  induction A with
  | nil =>
    intro B _ hl
    have : B = [] := List.length_eq_zero.mp (by simpa using hl)
    simp [colAt, hconcat, this]
  | cons a as ih =>
    intro B hA hl
    cases B with
    | nil => simp at hl
    | cons b bs =>
      simp only [hconcat, List.zipWith_cons_cons, colAt, List.map_cons]
      congr 1
      · have ha : a.length = w := hA a (by simp)
        rw [List.getD_append_right _ _ _ _ (by omega), ha]
      · exact ih (fun x hx => hA x (by simp [hx])) (by simpa using hl)

lemma map_take_hconcat {w k : ℕ} (hk : k ≤ w) :
    ∀ {A B : Mat}, isMat w A → B.length = A.length →
      (hconcat A B).map (List.take k) = A.map (List.take k) := by
  intro A
  induction A with
  | nil => intro B _ hl; simp [hconcat]
  | cons a as ih =>
    intro B hA hl
    cases B with
    | nil => simp at hl
    | cons b bs =>
      simp only [hconcat, List.zipWith_cons_cons, List.map_cons]
      congr 1
      · rw [List.take_append_of_le_length (by rw [hA a (by simp)]; exact hk)]
      · exact ih (fun x hx => hA x (by simp [hx])) (by simpa using hl)

lemma map_take_self {w : ℕ} {A : Mat} (hA : isMat w A) :
    A.map (List.take w) = A := by
  conv_rhs => rw [← List.map_id A]
  refine List.map_congr_left fun r hr => ?_
  rw [List.take_of_length_le (le_of_eq (hA r hr)), id]

lemma colAt_append (j : ℕ) (A B : Mat) :
    colAt j (A ++ B) = colAt j A ++ colAt j B :=
  List.map_append _ _ _

lemma getD_replicate_self {α : Type _} (n j : ℕ) (a : α) :
    (List.replicate n a).getD j a = a := by
  induction n generalizing j with
  | zero => simp
  | succ n ih =>
    cases j with
    | zero => simp [List.replicate_succ]
    | succ j => rw [List.replicate_succ, List.getD_cons_succ]; exact ih j

lemma getD_replicate_of_lt {α : Type _} {n j : ℕ} (h : j < n) (a d : α) :
    (List.replicate n a).getD j d = a := by
  induction n generalizing j with
  | zero => omega
  | succ n ih =>
    cases j with
    | zero => simp [List.replicate_succ]
    | succ j => simpa [List.replicate_succ] using ih (by omega)

lemma colAt_replicate_row (j r : ℕ) (row : List ℚ) :
    colAt j (List.replicate r row) = List.replicate r (row.getD j 0) := by
  simp [colAt, List.map_replicate]

lemma colAt_zerosMat (j r w : ℕ) :
    colAt j (zerosMat r w) = List.replicate r 0 := by
  rw [zerosMat, colAt_replicate_row]
  by_cases h : j < w
  · rw [getD_replicate_of_lt h]
  · rw [List.getD_eq_default _ _ (by simpa using not_lt.mp h)]

lemma isMat_hconcat' {w1 w2 w3 : ℕ} {A B : Mat} (h3 : w1 + w2 = w3)
    (hA : isMat w1 A) (hB : isMat w2 B) : isMat w3 (hconcat A B) :=
  h3 ▸ isMat_hconcat hA hB

lemma hconcatAll_seven (a b c d e f g : Mat) :
    hconcatAll [a, b, c, d, e, f, g] =
      hconcat (hconcat (hconcat (hconcat (hconcat (hconcat a b) c) d) e) f) g :=
  rfl

lemma hconcatAll_five (a b c d e : Mat) :
    hconcatAll [a, b, c, d, e] =
      hconcat (hconcat (hconcat (hconcat a b) c) d) e :=
  rfl

/-! ### Facts about the derived per-frame signals -/

lemma length_voicedFlag (vf : Mat) : (voicedFlag vf).length = vf.length :=
  List.length_map _ _

lemma isMat_voicedFlag {w : ℕ} {vf : Mat} (h : isMat w vf) :
    isMat w (voicedFlag vf) := by
  intro r hr
  simp only [voicedFlag, List.mem_map] at hr
  obtain ⟨a, ha, rfl⟩ := hr
  simpa using h a ha

lemma eosFlag_ne_nil (vf : Mat) : eosFlag vf ≠ [] := by
  simp [eosFlag]

lemma length_eosFlag {vf : Mat} (hne : vf ≠ []) :
    (eosFlag vf).length = vf.length := by
  have : 0 < vf.length := List.length_pos.mpr hne
  simp only [eosFlag, List.length_append, length_zerosMat, List.length_singleton]
  omega

lemma isMat_eosFlag {vf : Mat} (h : isMat 1 vf) (hne : vf ≠ []) :
    isMat 1 (eosFlag vf) := by
  have hw := matWidth_of_isMat h hne
  rw [eosFlag, hw]
  refine isMat_append (isMat_zerosMat _ _) ?_
  intro r hr
  simp only [List.mem_singleton] at hr
  simp [hr]

lemma length_to_categorical (i rows classes : ℕ) :
    (to_categorical i rows classes).length = rows :=
  List.length_replicate _ _

lemma isMat_to_categorical (i rows classes : ℕ) :
    isMat classes (to_categorical i rows classes) := by
  intro r hr
  rw [List.eq_of_mem_replicate hr]
  simp [to_categorical_row]

lemma colAt0_zp_src_eos {L m : ℕ} {vf : Mat} (hvf : isMat 1 vf)
    (hlen : vf.length = m) (hm1 : 1 ≤ m) (hmL : m ≤ L) :
    colAt 0 (zero_pad_params L "src" (eosFlag vf)) =
      List.replicate (L - 1) 0 ++ [1] := by
  have hne : vf ≠ [] := by
    intro h
    rw [h] at hlen
    simp at hlen
    omega
  have hw : matWidth vf = 1 := matWidth_of_isMat hvf hne
  have hwe : matWidth (eosFlag vf) = 1 :=
    matWidth_of_isMat (isMat_eosFlag hvf hne) (eosFlag_ne_nil vf)
  rw [zero_pad_src, colAt_append, colAt_zerosMat, length_eosFlag hne, hlen]
  rw [eosFlag, hw, hlen, colAt_append, colAt_zerosMat]
  have h1 : colAt 0 [List.replicate 1 (1 : ℚ)] = [1] := by
    simp [colAt]
  rw [h1, ← List.append_assoc, ← List.replicate_add]
  congr 2
  omega

lemma colAt0_zp_trg_eos {L m : ℕ} {vf : Mat} (hvf : isMat 1 vf)
    (hlen : vf.length = m) (hm1 : 1 ≤ m) (_hmL : m ≤ L) :
    colAt 0 (zero_pad_params L "trg" (eosFlag vf)) =
      List.replicate (m - 1) 0 ++ [1] ++ List.replicate (L - m) 0 := by
  have hne : vf ≠ [] := by
    intro h
    rw [h] at hlen
    simp at hlen
    omega
  have hw : matWidth vf = 1 := matWidth_of_isMat hvf hne
  have hwe : matWidth (eosFlag vf) = 1 :=
    matWidth_of_isMat (isMat_eosFlag hvf hne) (eosFlag_ne_nil vf)
  rw [zero_pad_trg, colAt_append, colAt_zerosMat, length_eosFlag hne, hlen]
  rw [eosFlag, hw, hlen, colAt_append, colAt_zerosMat]
  have h1 : colAt 0 [List.replicate 1 (1 : ℚ)] = [1] := by
    simp [colAt]
  rw [h1]

/-! ### Structure of the source and target tensors -/

set_option maxHeartbeats 1000000 in
lemma sourceParams_structure {L m si ti : ℕ} {src : SideFiles}
    (hs : SideOK m src) (hm1 : 1 ≤ m) (hmL : m ≤ L) :
    (sourceParams L si ti src).length = L ∧
    isMat 64 (sourceParams L si ti src) ∧
    (sourceParams L si ti src).map (List.take 42) =
      hconcat (hconcat (zero_pad_params L "src" src.mcp) (zero_pad_params L "src" src.f0_i)) (zero_pad_params L "src" src.vf_i) ∧
    colAt 42 (sourceParams L si ti src) =
      colAt 0 (zero_pad_params L "src" (voicedFlag src.vf)) ∧
    colAt 43 (sourceParams L si ti src) = List.replicate (L - 1) 0 ++ [1] := by
  obtain ⟨e1, w1, e2, w2, e3, w3, e4, w4, e5, w5⟩ := hs
  have hmpos : 0 < m := hm1
  have hmcp_ne : src.mcp ≠ [] := List.length_pos.mp (by omega)
  have hf0i_ne : src.f0_i ≠ [] := List.length_pos.mp (by omega)
  have hvfi_ne : src.vf_i ≠ [] := List.length_pos.mp (by omega)
  have hvf_ne : src.vf ≠ [] := List.length_pos.mp (by omega)
  have hvw_ne : voicedFlag src.vf ≠ [] :=
    List.length_pos.mp (by rw [length_voicedFlag]; omega)
  have hcat_ne : to_categorical si src.vf.length 10 ≠ [] :=
    List.length_pos.mp (by rw [length_to_categorical]; omega)
  have hcat_ne' : to_categorical ti src.vf.length 10 ≠ [] :=
    List.length_pos.mp (by rw [length_to_categorical]; omega)
  have hP1l : (zero_pad_params L "src" src.mcp).length = L :=
    length_zero_pad _ (by omega)
  have hP1w : isMat 40 (zero_pad_params L "src" src.mcp) :=
    isMat_zero_pad _ w1 hmcp_ne
  have hP2l : (zero_pad_params L "src" src.f0_i).length = L :=
    length_zero_pad _ (by omega)
  have hP2w : isMat 1 (zero_pad_params L "src" src.f0_i) :=
    isMat_zero_pad _ w3 hf0i_ne
  have hP3l : (zero_pad_params L "src" src.vf_i).length = L :=
    length_zero_pad _ (by omega)
  have hP3w : isMat 1 (zero_pad_params L "src" src.vf_i) :=
    isMat_zero_pad _ w5 hvfi_ne
  have hP4l : (zero_pad_params L "src" (voicedFlag src.vf)).length = L :=
    length_zero_pad _ (by rw [length_voicedFlag]; omega)
  have hP4w : isMat 1 (zero_pad_params L "src" (voicedFlag src.vf)) :=
    isMat_zero_pad _ (isMat_voicedFlag w4) hvw_ne
  have hP5l : (zero_pad_params L "src" (eosFlag src.vf)).length = L :=
    length_zero_pad _ (by rw [length_eosFlag hvf_ne]; omega)
  have hP5w : isMat 1 (zero_pad_params L "src" (eosFlag src.vf)) :=
    isMat_zero_pad _ (isMat_eosFlag w4 hvf_ne) (eosFlag_ne_nil _)
  have hP6l : (zero_pad_params L "src" (to_categorical si src.vf.length 10)).length = L :=
    length_zero_pad _ (by rw [length_to_categorical]; omega)
  have hP6w : isMat 10 (zero_pad_params L "src" (to_categorical si src.vf.length 10)) :=
    isMat_zero_pad _ (isMat_to_categorical _ _ _) hcat_ne
  have hP7l : (zero_pad_params L "src" (to_categorical ti src.vf.length 10)).length = L :=
    length_zero_pad _ (by rw [length_to_categorical]; omega)
  have hP7w : isMat 10 (zero_pad_params L "src" (to_categorical ti src.vf.length 10)) :=
    isMat_zero_pad _ (isMat_to_categorical _ _ _) hcat_ne'
  have hB2w : isMat 41 (hconcat (zero_pad_params L "src" src.mcp) (zero_pad_params L "src" src.f0_i)) :=
    isMat_hconcat' (show 40 + 1 = 41 by norm_num) hP1w hP2w
  have hB2l : (hconcat (zero_pad_params L "src" src.mcp) (zero_pad_params L "src" src.f0_i)).length = L := by
    rw [length_hconcat, hP1l, hP2l]; omega
  have hB3w : isMat 42 (hconcat (hconcat (zero_pad_params L "src" src.mcp) (zero_pad_params L "src" src.f0_i)) (zero_pad_params L "src" src.vf_i)) :=
    isMat_hconcat' (show 41 + 1 = 42 by norm_num) hB2w hP3w
  have hB3l : (hconcat (hconcat (zero_pad_params L "src" src.mcp) (zero_pad_params L "src" src.f0_i)) (zero_pad_params L "src" src.vf_i)).length = L := by
    rw [length_hconcat, hB2l, hP3l]; omega
  have hB4w : isMat 43 (hconcat (hconcat (hconcat (zero_pad_params L "src" src.mcp) (zero_pad_params L "src" src.f0_i)) (zero_pad_params L "src" src.vf_i)) (zero_pad_params L "src" (voicedFlag src.vf))) :=
    isMat_hconcat' (show 42 + 1 = 43 by norm_num) hB3w hP4w
  have hB4l : (hconcat (hconcat (hconcat (zero_pad_params L "src" src.mcp) (zero_pad_params L "src" src.f0_i)) (zero_pad_params L "src" src.vf_i)) (zero_pad_params L "src" (voicedFlag src.vf))).length = L := by
    rw [length_hconcat, hB3l, hP4l]; omega
  have hB5w : isMat 44 (hconcat (hconcat (hconcat (hconcat (zero_pad_params L "src" src.mcp) (zero_pad_params L "src" src.f0_i)) (zero_pad_params L "src" src.vf_i)) (zero_pad_params L "src" (voicedFlag src.vf))) (zero_pad_params L "src" (eosFlag src.vf))) :=
    isMat_hconcat' (show 43 + 1 = 44 by norm_num) hB4w hP5w
  have hB5l : (hconcat (hconcat (hconcat (hconcat (zero_pad_params L "src" src.mcp) (zero_pad_params L "src" src.f0_i)) (zero_pad_params L "src" src.vf_i)) (zero_pad_params L "src" (voicedFlag src.vf))) (zero_pad_params L "src" (eosFlag src.vf))).length = L := by
    rw [length_hconcat, hB4l, hP5l]; omega
  have hB6w : isMat 54 (hconcat (hconcat (hconcat (hconcat (hconcat (zero_pad_params L "src" src.mcp) (zero_pad_params L "src" src.f0_i)) (zero_pad_params L "src" src.vf_i)) (zero_pad_params L "src" (voicedFlag src.vf))) (zero_pad_params L "src" (eosFlag src.vf))) (zero_pad_params L "src" (to_categorical si src.vf.length 10))) :=
    isMat_hconcat' (show 44 + 10 = 54 by norm_num) hB5w hP6w
  have hB6l : (hconcat (hconcat (hconcat (hconcat (hconcat (zero_pad_params L "src" src.mcp) (zero_pad_params L "src" src.f0_i)) (zero_pad_params L "src" src.vf_i)) (zero_pad_params L "src" (voicedFlag src.vf))) (zero_pad_params L "src" (eosFlag src.vf))) (zero_pad_params L "src" (to_categorical si src.vf.length 10))).length = L := by
    rw [length_hconcat, hB5l, hP6l]; omega
  have hB7w : isMat 64 (hconcat (hconcat (hconcat (hconcat (hconcat (hconcat (zero_pad_params L "src" src.mcp) (zero_pad_params L "src" src.f0_i)) (zero_pad_params L "src" src.vf_i)) (zero_pad_params L "src" (voicedFlag src.vf))) (zero_pad_params L "src" (eosFlag src.vf))) (zero_pad_params L "src" (to_categorical si src.vf.length 10))) (zero_pad_params L "src" (to_categorical ti src.vf.length 10))) :=
    isMat_hconcat' (show 54 + 10 = 64 by norm_num) hB6w hP7w
  have hB7l : (hconcat (hconcat (hconcat (hconcat (hconcat (hconcat (zero_pad_params L "src" src.mcp) (zero_pad_params L "src" src.f0_i)) (zero_pad_params L "src" src.vf_i)) (zero_pad_params L "src" (voicedFlag src.vf))) (zero_pad_params L "src" (eosFlag src.vf))) (zero_pad_params L "src" (to_categorical si src.vf.length 10))) (zero_pad_params L "src" (to_categorical ti src.vf.length 10))).length = L := by
    rw [length_hconcat, hB6l, hP7l]; omega
  have hE2 : (zero_pad_params L "src" src.f0_i).length = (zero_pad_params L "src" src.mcp).length := by
    rw [hP2l, hP1l]
  have hE3 : (zero_pad_params L "src" src.vf_i).length = (hconcat (zero_pad_params L "src" src.mcp) (zero_pad_params L "src" src.f0_i)).length := by
    rw [hP3l, hB2l]
  have hE4 : (zero_pad_params L "src" (voicedFlag src.vf)).length = (hconcat (hconcat (zero_pad_params L "src" src.mcp) (zero_pad_params L "src" src.f0_i)) (zero_pad_params L "src" src.vf_i)).length := by
    rw [hP4l, hB3l]
  have hE5 : (zero_pad_params L "src" (eosFlag src.vf)).length = (hconcat (hconcat (hconcat (zero_pad_params L "src" src.mcp) (zero_pad_params L "src" src.f0_i)) (zero_pad_params L "src" src.vf_i)) (zero_pad_params L "src" (voicedFlag src.vf))).length := by
    rw [hP5l, hB4l]
  have hE6 : (zero_pad_params L "src" (to_categorical si src.vf.length 10)).length = (hconcat (hconcat (hconcat (hconcat (zero_pad_params L "src" src.mcp) (zero_pad_params L "src" src.f0_i)) (zero_pad_params L "src" src.vf_i)) (zero_pad_params L "src" (voicedFlag src.vf))) (zero_pad_params L "src" (eosFlag src.vf))).length := by
    rw [hP6l, hB5l]
  have hE7 : (zero_pad_params L "src" (to_categorical ti src.vf.length 10)).length = (hconcat (hconcat (hconcat (hconcat (hconcat (zero_pad_params L "src" src.mcp) (zero_pad_params L "src" src.f0_i)) (zero_pad_params L "src" src.vf_i)) (zero_pad_params L "src" (voicedFlag src.vf))) (zero_pad_params L "src" (eosFlag src.vf))) (zero_pad_params L "src" (to_categorical si src.vf.length 10))).length := by
    rw [hP7l, hB6l]
  have q1 : (hconcat (hconcat (hconcat (hconcat (hconcat (hconcat (zero_pad_params L "src" src.mcp) (zero_pad_params L "src" src.f0_i)) (zero_pad_params L "src" src.vf_i)) (zero_pad_params L "src" (voicedFlag src.vf))) (zero_pad_params L "src" (eosFlag src.vf))) (zero_pad_params L "src" (to_categorical si src.vf.length 10))) (zero_pad_params L "src" (to_categorical ti src.vf.length 10))).map (List.take 42) = (hconcat (hconcat (hconcat (hconcat (hconcat (zero_pad_params L "src" src.mcp) (zero_pad_params L "src" src.f0_i)) (zero_pad_params L "src" src.vf_i)) (zero_pad_params L "src" (voicedFlag src.vf))) (zero_pad_params L "src" (eosFlag src.vf))) (zero_pad_params L "src" (to_categorical si src.vf.length 10))).map (List.take 42) :=
    map_take_hconcat (show (42:ℕ) ≤ 54 by norm_num) hB6w hE7
  have q2 : (hconcat (hconcat (hconcat (hconcat (hconcat (zero_pad_params L "src" src.mcp) (zero_pad_params L "src" src.f0_i)) (zero_pad_params L "src" src.vf_i)) (zero_pad_params L "src" (voicedFlag src.vf))) (zero_pad_params L "src" (eosFlag src.vf))) (zero_pad_params L "src" (to_categorical si src.vf.length 10))).map (List.take 42) = (hconcat (hconcat (hconcat (hconcat (zero_pad_params L "src" src.mcp) (zero_pad_params L "src" src.f0_i)) (zero_pad_params L "src" src.vf_i)) (zero_pad_params L "src" (voicedFlag src.vf))) (zero_pad_params L "src" (eosFlag src.vf))).map (List.take 42) :=
    map_take_hconcat (show (42:ℕ) ≤ 44 by norm_num) hB5w hE6
  have q3 : (hconcat (hconcat (hconcat (hconcat (zero_pad_params L "src" src.mcp) (zero_pad_params L "src" src.f0_i)) (zero_pad_params L "src" src.vf_i)) (zero_pad_params L "src" (voicedFlag src.vf))) (zero_pad_params L "src" (eosFlag src.vf))).map (List.take 42) = (hconcat (hconcat (hconcat (zero_pad_params L "src" src.mcp) (zero_pad_params L "src" src.f0_i)) (zero_pad_params L "src" src.vf_i)) (zero_pad_params L "src" (voicedFlag src.vf))).map (List.take 42) :=
    map_take_hconcat (show (42:ℕ) ≤ 43 by norm_num) hB4w hE5
  have q4 : (hconcat (hconcat (hconcat (zero_pad_params L "src" src.mcp) (zero_pad_params L "src" src.f0_i)) (zero_pad_params L "src" src.vf_i)) (zero_pad_params L "src" (voicedFlag src.vf))).map (List.take 42) = (hconcat (hconcat (zero_pad_params L "src" src.mcp) (zero_pad_params L "src" src.f0_i)) (zero_pad_params L "src" src.vf_i)).map (List.take 42) :=
    map_take_hconcat (show (42:ℕ) ≤ 42 by norm_num) hB3w hE4
  have q5 : (hconcat (hconcat (zero_pad_params L "src" src.mcp) (zero_pad_params L "src" src.f0_i)) (zero_pad_params L "src" src.vf_i)).map (List.take 42) = hconcat (hconcat (zero_pad_params L "src" src.mcp) (zero_pad_params L "src" src.f0_i)) (zero_pad_params L "src" src.vf_i) :=
    map_take_self hB3w
  have c1 : colAt 42 (hconcat (hconcat (hconcat (hconcat (hconcat (hconcat (zero_pad_params L "src" src.mcp) (zero_pad_params L "src" src.f0_i)) (zero_pad_params L "src" src.vf_i)) (zero_pad_params L "src" (voicedFlag src.vf))) (zero_pad_params L "src" (eosFlag src.vf))) (zero_pad_params L "src" (to_categorical si src.vf.length 10))) (zero_pad_params L "src" (to_categorical ti src.vf.length 10))) = colAt 42 (hconcat (hconcat (hconcat (hconcat (hconcat (zero_pad_params L "src" src.mcp) (zero_pad_params L "src" src.f0_i)) (zero_pad_params L "src" src.vf_i)) (zero_pad_params L "src" (voicedFlag src.vf))) (zero_pad_params L "src" (eosFlag src.vf))) (zero_pad_params L "src" (to_categorical si src.vf.length 10))) :=
    colAt_hconcat_of_lt (show (42:ℕ) < 54 by norm_num) hB6w hE7
  have c2 : colAt 42 (hconcat (hconcat (hconcat (hconcat (hconcat (zero_pad_params L "src" src.mcp) (zero_pad_params L "src" src.f0_i)) (zero_pad_params L "src" src.vf_i)) (zero_pad_params L "src" (voicedFlag src.vf))) (zero_pad_params L "src" (eosFlag src.vf))) (zero_pad_params L "src" (to_categorical si src.vf.length 10))) = colAt 42 (hconcat (hconcat (hconcat (hconcat (zero_pad_params L "src" src.mcp) (zero_pad_params L "src" src.f0_i)) (zero_pad_params L "src" src.vf_i)) (zero_pad_params L "src" (voicedFlag src.vf))) (zero_pad_params L "src" (eosFlag src.vf))) :=
    colAt_hconcat_of_lt (show (42:ℕ) < 44 by norm_num) hB5w hE6
  have c3 : colAt 42 (hconcat (hconcat (hconcat (hconcat (zero_pad_params L "src" src.mcp) (zero_pad_params L "src" src.f0_i)) (zero_pad_params L "src" src.vf_i)) (zero_pad_params L "src" (voicedFlag src.vf))) (zero_pad_params L "src" (eosFlag src.vf))) = colAt 42 (hconcat (hconcat (hconcat (zero_pad_params L "src" src.mcp) (zero_pad_params L "src" src.f0_i)) (zero_pad_params L "src" src.vf_i)) (zero_pad_params L "src" (voicedFlag src.vf))) :=
    colAt_hconcat_of_lt (show (42:ℕ) < 43 by norm_num) hB4w hE5
  have c4 : colAt 42 (hconcat (hconcat (hconcat (zero_pad_params L "src" src.mcp) (zero_pad_params L "src" src.f0_i)) (zero_pad_params L "src" src.vf_i)) (zero_pad_params L "src" (voicedFlag src.vf))) = colAt 0 (zero_pad_params L "src" (voicedFlag src.vf)) :=
    colAt_hconcat_of_le (show (42:ℕ) ≤ 42 by norm_num) hB3w hE4
  have d1 : colAt 43 (hconcat (hconcat (hconcat (hconcat (hconcat (hconcat (zero_pad_params L "src" src.mcp) (zero_pad_params L "src" src.f0_i)) (zero_pad_params L "src" src.vf_i)) (zero_pad_params L "src" (voicedFlag src.vf))) (zero_pad_params L "src" (eosFlag src.vf))) (zero_pad_params L "src" (to_categorical si src.vf.length 10))) (zero_pad_params L "src" (to_categorical ti src.vf.length 10))) = colAt 43 (hconcat (hconcat (hconcat (hconcat (hconcat (zero_pad_params L "src" src.mcp) (zero_pad_params L "src" src.f0_i)) (zero_pad_params L "src" src.vf_i)) (zero_pad_params L "src" (voicedFlag src.vf))) (zero_pad_params L "src" (eosFlag src.vf))) (zero_pad_params L "src" (to_categorical si src.vf.length 10))) :=
    colAt_hconcat_of_lt (show (43:ℕ) < 54 by norm_num) hB6w hE7
  have d2 : colAt 43 (hconcat (hconcat (hconcat (hconcat (hconcat (zero_pad_params L "src" src.mcp) (zero_pad_params L "src" src.f0_i)) (zero_pad_params L "src" src.vf_i)) (zero_pad_params L "src" (voicedFlag src.vf))) (zero_pad_params L "src" (eosFlag src.vf))) (zero_pad_params L "src" (to_categorical si src.vf.length 10))) = colAt 43 (hconcat (hconcat (hconcat (hconcat (zero_pad_params L "src" src.mcp) (zero_pad_params L "src" src.f0_i)) (zero_pad_params L "src" src.vf_i)) (zero_pad_params L "src" (voicedFlag src.vf))) (zero_pad_params L "src" (eosFlag src.vf))) :=
    colAt_hconcat_of_lt (show (43:ℕ) < 44 by norm_num) hB5w hE6
  have d3 : colAt 43 (hconcat (hconcat (hconcat (hconcat (zero_pad_params L "src" src.mcp) (zero_pad_params L "src" src.f0_i)) (zero_pad_params L "src" src.vf_i)) (zero_pad_params L "src" (voicedFlag src.vf))) (zero_pad_params L "src" (eosFlag src.vf))) = colAt 0 (zero_pad_params L "src" (eosFlag src.vf)) :=
    colAt_hconcat_of_le (show (43:ℕ) ≤ 43 by norm_num) hB4w hE5
  rw [sourceParams, hconcatAll_seven]
  exact ⟨hB7l, hB7w, q1.trans (q2.trans (q3.trans (q4.trans q5))),
    c1.trans (c2.trans (c3.trans c4)),
    d1.trans (d2.trans (d3.trans (colAt0_zp_src_eos w4 e4 hm1 hmL)))⟩

set_option maxHeartbeats 1000000 in
lemma targetParams_structure {L n : ℕ} {trg : SideFiles}
    (ht : SideOK n trg) (hn1 : 1 ≤ n) (hnL : n ≤ L) :
    (targetParams L trg).length = L ∧
    isMat 44 (targetParams L trg) ∧
    colAt 43 (targetParams L trg) =
      List.replicate (n - 1) 0 ++ [1] ++ List.replicate (L - n) 0 := by
  obtain ⟨e1, w1, e2, w2, e3, w3, e4, w4, e5, w5⟩ := ht
  have hnpos : 0 < n := hn1
  have hmcp_ne : trg.mcp ≠ [] := List.length_pos.mp (by omega)
  have hf0i_ne : trg.f0_i ≠ [] := List.length_pos.mp (by omega)
  have hvfi_ne : trg.vf_i ≠ [] := List.length_pos.mp (by omega)
  have hvf_ne : trg.vf ≠ [] := List.length_pos.mp (by omega)
  have hvw_ne : voicedFlag trg.vf ≠ [] :=
    List.length_pos.mp (by rw [length_voicedFlag]; omega)
  have hP1l : (zero_pad_params L "trg" trg.mcp).length = L :=
    length_zero_pad _ (by omega)
  have hP1w : isMat 40 (zero_pad_params L "trg" trg.mcp) :=
    isMat_zero_pad _ w1 hmcp_ne
  have hP2l : (zero_pad_params L "trg" trg.f0_i).length = L :=
    length_zero_pad _ (by omega)
  have hP2w : isMat 1 (zero_pad_params L "trg" trg.f0_i) :=
    isMat_zero_pad _ w3 hf0i_ne
  have hP3l : (zero_pad_params L "trg" trg.vf_i).length = L :=
    length_zero_pad _ (by omega)
  have hP3w : isMat 1 (zero_pad_params L "trg" trg.vf_i) :=
    isMat_zero_pad _ w5 hvfi_ne
  have hP4l : (zero_pad_params L "trg" (voicedFlag trg.vf)).length = L :=
    length_zero_pad _ (by rw [length_voicedFlag]; omega)
  have hP4w : isMat 1 (zero_pad_params L "trg" (voicedFlag trg.vf)) :=
    isMat_zero_pad _ (isMat_voicedFlag w4) hvw_ne
  have hP5l : (zero_pad_params L "trg" (eosFlag trg.vf)).length = L :=
    length_zero_pad _ (by rw [length_eosFlag hvf_ne]; omega)
  have hP5w : isMat 1 (zero_pad_params L "trg" (eosFlag trg.vf)) :=
    isMat_zero_pad _ (isMat_eosFlag w4 hvf_ne) (eosFlag_ne_nil _)
  have hB2w : isMat 41 (hconcat (zero_pad_params L "trg" trg.mcp) (zero_pad_params L "trg" trg.f0_i)) :=
    isMat_hconcat' (show 40 + 1 = 41 by norm_num) hP1w hP2w
  have hB2l : (hconcat (zero_pad_params L "trg" trg.mcp) (zero_pad_params L "trg" trg.f0_i)).length = L := by
    rw [length_hconcat, hP1l, hP2l]; omega
  have hB3w : isMat 42 (hconcat (hconcat (zero_pad_params L "trg" trg.mcp) (zero_pad_params L "trg" trg.f0_i)) (zero_pad_params L "trg" trg.vf_i)) :=
    isMat_hconcat' (show 41 + 1 = 42 by norm_num) hB2w hP3w
  have hB3l : (hconcat (hconcat (zero_pad_params L "trg" trg.mcp) (zero_pad_params L "trg" trg.f0_i)) (zero_pad_params L "trg" trg.vf_i)).length = L := by
    rw [length_hconcat, hB2l, hP3l]; omega
  have hB4w : isMat 43 (hconcat (hconcat (hconcat (zero_pad_params L "trg" trg.mcp) (zero_pad_params L "trg" trg.f0_i)) (zero_pad_params L "trg" trg.vf_i)) (zero_pad_params L "trg" (voicedFlag trg.vf))) :=
    isMat_hconcat' (show 42 + 1 = 43 by norm_num) hB3w hP4w
  have hB4l : (hconcat (hconcat (hconcat (zero_pad_params L "trg" trg.mcp) (zero_pad_params L "trg" trg.f0_i)) (zero_pad_params L "trg" trg.vf_i)) (zero_pad_params L "trg" (voicedFlag trg.vf))).length = L := by
    rw [length_hconcat, hB3l, hP4l]; omega
  have hB5w : isMat 44 (hconcat (hconcat (hconcat (hconcat (zero_pad_params L "trg" trg.mcp) (zero_pad_params L "trg" trg.f0_i)) (zero_pad_params L "trg" trg.vf_i)) (zero_pad_params L "trg" (voicedFlag trg.vf))) (zero_pad_params L "trg" (eosFlag trg.vf))) :=
    isMat_hconcat' (show 43 + 1 = 44 by norm_num) hB4w hP5w
  have hB5l : (hconcat (hconcat (hconcat (hconcat (zero_pad_params L "trg" trg.mcp) (zero_pad_params L "trg" trg.f0_i)) (zero_pad_params L "trg" trg.vf_i)) (zero_pad_params L "trg" (voicedFlag trg.vf))) (zero_pad_params L "trg" (eosFlag trg.vf))).length = L := by
    rw [length_hconcat, hB4l, hP5l]; omega
  have hE5 : (zero_pad_params L "trg" (eosFlag trg.vf)).length = (hconcat (hconcat (hconcat (zero_pad_params L "trg" trg.mcp) (zero_pad_params L "trg" trg.f0_i)) (zero_pad_params L "trg" trg.vf_i)) (zero_pad_params L "trg" (voicedFlag trg.vf))).length := by
    rw [hP5l, hB4l]
  have d3 : colAt 43 (hconcat (hconcat (hconcat (hconcat (zero_pad_params L "trg" trg.mcp) (zero_pad_params L "trg" trg.f0_i)) (zero_pad_params L "trg" trg.vf_i)) (zero_pad_params L "trg" (voicedFlag trg.vf))) (zero_pad_params L "trg" (eosFlag trg.vf))) = colAt 0 (zero_pad_params L "trg" (eosFlag trg.vf)) :=
    colAt_hconcat_of_le (show (43:ℕ) ≤ 43 by norm_num) hB4w hE5
  rw [targetParams, hconcatAll_five]
  exact ⟨hB5l, hB5w, d3.trans (colAt0_zp_trg_eos w4 e4 hn1 hnL)⟩

/-! ### Success of `seq2seq_build_file_table` on well-formed streams -/

lemma build_eq_some {L m n si ti : ℕ} {src trg : SideFiles}
    (hs : SideOK m src) (ht : SideOK n trg) (hm1 : 1 ≤ m) (hmL : m ≤ L)
    (hn1 : 1 ≤ n) (hnL : n ≤ L) (hsi : si < 10) (hti : ti < 10) :
    seq2seq_build_file_table L src si trg ti =
      some (sourceParams L si ti src,
            zerosMat (L - m) 1 ++ onesMat m 1,
            targetParams L trg,
            onesMat n 1 ++ zerosMat (L - n) 1) := by
  obtain ⟨e1, w1, e2, w2, e3, w3, e4, w4, e5, w5⟩ := hs
  obtain ⟨f1, x1, f2, x2, f3, x3, f4, x4, f5, x5⟩ := ht
  rw [seq2seq_build_file_table]
  repeat rw [if_neg (by omega)]
  rw [e1, f1]

lemma flatten_replicate_singleton (r : ℕ) (x : ℚ) :
    (List.replicate r ([x] : List ℚ)).flatten = List.replicate r x := by
  induction r with
  | zero => simp
  | succ r ih => simp [List.replicate_succ, ih]

lemma getD_after_zeros (k : ℕ) (t : List ℚ) :
    (List.replicate k (0 : ℚ) ++ (1 :: t)).getD k 0 = 1 := by
  have hl : (List.replicate k (0 : ℚ)).length = k := List.length_replicate _ _
  rw [List.getD_append_right _ _ _ _ (by omega), hl, Nat.sub_self]
  rfl

/-- Claim C1: for every triple whose source side has `m ≤ L` real frames and
whose target side has `n ≤ L` real frames, `seq2seq_build_file_table` returns
a source mask of shape `(L, 1)` made of `L - m` zeros followed by `m` ones
(front padding) and a target mask of shape `(L, 1)` made of `n` ones followed
by `L - n` zeros (end padding). -/
theorem C1_sequence_masks {L m n si ti : ℕ} {src trg : SideFiles}
    (hs : SideOK m src) (ht : SideOK n trg) (hm1 : 1 ≤ m) (hmL : m ≤ L)
    (hn1 : 1 ≤ n) (hnL : n ≤ L) (hsi : si < 10) (hti : ti < 10) :
    seq2seq_build_file_table L src si trg ti =
      some (sourceParams L si ti src,
            zerosMat (L - m) 1 ++ onesMat m 1,
            targetParams L trg,
            onesMat n 1 ++ zerosMat (L - n) 1) ∧
    (zerosMat (L - m) 1 ++ onesMat m 1).length = L ∧
    isMat 1 (zerosMat (L - m) 1 ++ onesMat m 1) ∧
    (onesMat n 1 ++ zerosMat (L - n) 1).length = L ∧
    isMat 1 (onesMat n 1 ++ zerosMat (L - n) 1) ∧
    (zerosMat (L - m) 1 ++ onesMat m 1).flatten =
      List.replicate (L - m) 0 ++ List.replicate m 1 ∧
    (onesMat n 1 ++ zerosMat (L - n) 1).flatten =
      List.replicate n 1 ++ List.replicate (L - n) 0 := by
  refine ⟨build_eq_some hs ht hm1 hmL hn1 hnL hsi hti, ?_, ?_, ?_, ?_, ?_, ?_⟩
  · rw [List.length_append, length_zerosMat, length_onesMat]; omega
  · exact isMat_append (isMat_zerosMat _ _) (isMat_onesMat _ _)
  · rw [List.length_append, length_zerosMat, length_onesMat]; omega
  · exact isMat_append (isMat_onesMat _ _) (isMat_zerosMat _ _)
  · rw [zerosMat, onesMat, List.flatten_append]
    norm_num [flatten_replicate_singleton]
  · rw [zerosMat, onesMat, List.flatten_append]
    norm_num [flatten_replicate_singleton]

/-- Example parse result used by the witnesses: 3 frames, mcp entries 2,
all width-1 streams constantly 1. -/
def exSide : SideFiles :=
  { mcp := List.replicate 3 (List.replicate 40 2),
    f0 := List.replicate 3 [1],
    f0_i := List.replicate 3 [1],
    vf := List.replicate 3 [1],
    vf_i := List.replicate 3 [1] }

theorem C1_sequence_masks_witness :
    SideOK 3 exSide ∧ (1 : ℕ) ≤ 3 ∧ (3 : ℕ) ≤ 5 ∧ (0 : ℕ) < 10 ∧ (1 : ℕ) < 10 ∧
    (seq2seq_build_file_table 5 exSide 0 exSide 1 =
      some (sourceParams 5 0 1 exSide,
            zerosMat (5 - 3) 1 ++ onesMat 3 1,
            targetParams 5 exSide,
            onesMat 3 1 ++ zerosMat (5 - 3) 1) ∧
    (zerosMat (5 - 3) 1 ++ onesMat 3 1).length = 5 ∧
    isMat 1 (zerosMat (5 - 3) 1 ++ onesMat 3 1) ∧
    (onesMat 3 1 ++ zerosMat (5 - 3) 1).length = 5 ∧
    isMat 1 (onesMat 3 1 ++ zerosMat (5 - 3) 1) ∧
    (zerosMat (5 - 3) 1 ++ onesMat 3 1).flatten =
      List.replicate (5 - 3) 0 ++ List.replicate 3 1 ∧
    (onesMat 3 1 ++ zerosMat (5 - 3) 1).flatten =
      List.replicate 3 1 ++ List.replicate (5 - 3) 0) :=
  ⟨by decide, by decide, by decide, by decide, by decide,
   C1_sequence_masks (by decide) (by decide) (by decide) (by decide)
     (by decide) (by decide) (by decide) (by decide)⟩

/-- Claim C2: for every triple (with `1 ≤ m ≤ L` source frames and
`1 ≤ n ≤ L` target frames), column 43 — the 44th column, after the 40
spectral columns, the interpolated pitch, the interpolated voicing and the
voiced flag — of both returned tensors sums to exactly 1, with the single 1
at row `L - 1` on the front-padded source side and at row `n - 1` on the
end-padded target side. -/
theorem C2_eos_flag {L m n si ti : ℕ} {src trg : SideFiles}
    (hs : SideOK m src) (ht : SideOK n trg) (hm1 : 1 ≤ m) (hmL : m ≤ L)
    (hn1 : 1 ≤ n) (hnL : n ≤ L) (hsi : si < 10) (hti : ti < 10) :
    seq2seq_build_file_table L src si trg ti =
      some (sourceParams L si ti src,
            zerosMat (L - m) 1 ++ onesMat m 1,
            targetParams L trg,
            onesMat n 1 ++ zerosMat (L - n) 1) ∧
    colAt 43 (sourceParams L si ti src) = List.replicate (L - 1) 0 ++ [1] ∧
    (colAt 43 (sourceParams L si ti src)).sum = 1 ∧
    (colAt 43 (sourceParams L si ti src)).getD (L - 1) 0 = 1 ∧
    colAt 43 (targetParams L trg) =
      List.replicate (n - 1) 0 ++ [1] ++ List.replicate (L - n) 0 ∧
    (colAt 43 (targetParams L trg)).sum = 1 ∧
    (colAt 43 (targetParams L trg)).getD (n - 1) 0 = 1 := by
  obtain ⟨-, -, -, -, hcol43s⟩ := @sourceParams_structure L m si ti src hs hm1 hmL
  obtain ⟨-, -, hcol43t⟩ := targetParams_structure ht hn1 hnL
  refine ⟨build_eq_some hs ht hm1 hmL hn1 hnL hsi hti, hcol43s, ?_, ?_, hcol43t, ?_, ?_⟩
  · rw [hcol43s]
    simp
  · rw [hcol43s]
    exact getD_after_zeros _ _
  · rw [hcol43t]
    simp
  · rw [hcol43t, List.append_assoc, List.singleton_append]
    exact getD_after_zeros _ _

theorem C2_eos_flag_witness :
    SideOK 3 exSide ∧ (1 : ℕ) ≤ 3 ∧ (3 : ℕ) ≤ 5 ∧ (0 : ℕ) < 10 ∧ (1 : ℕ) < 10 ∧
    (seq2seq_build_file_table 5 exSide 0 exSide 1 =
      some (sourceParams 5 0 1 exSide,
            zerosMat (5 - 3) 1 ++ onesMat 3 1,
            targetParams 5 exSide,
            onesMat 3 1 ++ zerosMat (5 - 3) 1) ∧
    colAt 43 (sourceParams 5 0 1 exSide) = List.replicate (5 - 1) 0 ++ [1] ∧
    (colAt 43 (sourceParams 5 0 1 exSide)).sum = 1 ∧
    (colAt 43 (sourceParams 5 0 1 exSide)).getD (5 - 1) 0 = 1 ∧
    colAt 43 (targetParams 5 exSide) =
      List.replicate (3 - 1) 0 ++ [1] ++ List.replicate (5 - 3) 0 ∧
    (colAt 43 (targetParams 5 exSide)).sum = 1 ∧
    (colAt 43 (targetParams 5 exSide)).getD (3 - 1) 0 = 1) :=
  ⟨by decide, by decide, by decide, by decide, by decide,
   C2_eos_flag (by decide) (by decide) (by decide) (by decide)
     (by decide) (by decide) (by decide) (by decide)⟩

/-- Claim C8: on well-formed streams, if both sides' real frame counts are at
most `L` then the call succeeds, both masks have shape `(L, 1)` and the
shape-equality assertion holds; if either side's real frame count exceeds
`L`, the call fails fatally (returns `none`, never a malformed result). -/
theorem C8_shape_check {L m n si ti : ℕ} {src trg : SideFiles}
    (hs : SideOK m src) (ht : SideOK n trg) (hm1 : 1 ≤ m) (hn1 : 1 ≤ n)
    (hsi : si < 10) (hti : ti < 10) :
    (m ≤ L → n ≤ L →
      seq2seq_build_file_table L src si trg ti =
        some (sourceParams L si ti src,
              zerosMat (L - m) 1 ++ onesMat m 1,
              targetParams L trg,
              onesMat n 1 ++ zerosMat (L - n) 1) ∧
      (zerosMat (L - m) 1 ++ onesMat m 1).length = L ∧
      isMat 1 (zerosMat (L - m) 1 ++ onesMat m 1) ∧
      (onesMat n 1 ++ zerosMat (L - n) 1).length = L ∧
      isMat 1 (onesMat n 1 ++ zerosMat (L - n) 1) ∧
      (zerosMat (L - m) 1 ++ onesMat m 1).length =
        (onesMat n 1 ++ zerosMat (L - n) 1).length) ∧
    (L < m ∨ L < n → seq2seq_build_file_table L src si trg ti = none) := by
  constructor
  · intro hmL hnL
    obtain ⟨h1, h2, h3, h4, h5, -, -⟩ :=
      C1_sequence_masks hs ht hm1 hmL hn1 hnL hsi hti
    exact ⟨h1, h2, h3, h4, h5, by omega⟩
  · intro hbad
    obtain ⟨e1, w1, e2, w2, e3, w3, e4, w4, e5, w5⟩ := hs
    obtain ⟨f1, x1, f2, x2, f3, x3, f4, x4, f5, x5⟩ := ht
    rw [seq2seq_build_file_table]
    by_cases hm : L < m
    all_goals repeat rw [if_neg (by omega)]
    all_goals rw [if_pos (by omega)]

theorem C8_shape_check_witness :
    SideOK 3 exSide ∧ (1 : ℕ) ≤ 3 ∧ (0 : ℕ) < 10 ∧ (1 : ℕ) < 10 ∧
    (((3 : ℕ) ≤ 5 → (3 : ℕ) ≤ 5 →
      seq2seq_build_file_table 5 exSide 0 exSide 1 =
        some (sourceParams 5 0 1 exSide,
              zerosMat (5 - 3) 1 ++ onesMat 3 1,
              targetParams 5 exSide,
              onesMat 3 1 ++ zerosMat (5 - 3) 1) ∧
      (zerosMat (5 - 3) 1 ++ onesMat 3 1).length = 5 ∧
      isMat 1 (zerosMat (5 - 3) 1 ++ onesMat 3 1) ∧
      (onesMat 3 1 ++ zerosMat (5 - 3) 1).length = 5 ∧
      isMat 1 (onesMat 3 1 ++ zerosMat (5 - 3) 1) ∧
      (zerosMat (5 - 3) 1 ++ onesMat 3 1).length =
        (onesMat 3 1 ++ zerosMat (5 - 3) 1).length) ∧
    ((5 : ℕ) < 3 ∨ (5 : ℕ) < 3 → seq2seq_build_file_table 5 exSide 0 exSide 1 = none)) :=
  ⟨by decide, by decide, by decide, by decide,
   C8_shape_check (by decide) (by decide) (by decide) (by decide)
     (by decide) (by decide)⟩

/-! ### Claim C3: persistence round trip -/

/-- Concrete container contents used to exercise the save/load pair. -/
def exH5 : H5Data :=
  { src_datatable := [[[1]]], trg_datatable := [[[2]]],
    src_mask := [[1]], trg_mask := [[1]],
    max_seq_length := 5,
    speakers_max := [[3]], speakers_min := [[0]] }

/-- The empty directory: no `.h5` container exists yet. -/
def emptyFS : FileSystem := fun _ => none

/-- Claim C3 fails on the code: `seq2seq_save_datatable` writes the container
at `datatable_file + ".h5"` while `seq2seq2_load_datatable` opens
`datatable_file` itself, so on the same instance (here
`datatable_file = "datatable"`, starting from an empty directory) the load
following a save finds no file and fails, instead of succeeding with
bit-identical data.  The data is intact at the path actually written. -/
theorem C3_save_load_mismatch :
    seq2seq2_load_datatable
      (seq2seq_save_datatable emptyFS "datatable" exH5) "datatable" = none ∧
    seq2seq_save_datatable emptyFS "datatable" exH5 "datatable.h5" = some exH5 := by
  constructor
  · rfl
  · rfl

/-- On any filesystem and any instance, the path the save writes and the path
the load opens differ, and loading from the written path does return the
saved data unchanged — the round trip fails only because of the filename
mismatch. -/
lemma save_load_paths_differ (fs : FileSystem) (file : String) (d : H5Data) :
    file ≠ file ++ ".h5" ∧
    seq2seq2_load_datatable (seq2seq_save_datatable fs file d)
      (file ++ ".h5") = some d := by
  constructor
  · intro h
    have := congrArg String.length h
    rw [String.length_append] at this
    have h3 : (".h5" : String).length = 3 := rfl
    omega
  · simp [seq2seq2_load_datatable, seq2seq_save_datatable]

/-! ### Claim C9: constructor configuration check -/

/-- Claim C9 fails on the code: with `shortseq = True` and a non-integer
`max_seq_length`, the `AssertionError` is caught and only a message is
printed, after which construction proceeds — the speakers and basenames
files are parsed and the instance is fully constructed with the invalid
`max_seq_length` stored (and `find_longest_sequence` is not invoked, because
`shortseq` is true). -/
theorem C9_counterexample :
    Seq2SeqDatatable.init true none ["A", "B"] ["u1"] (fun _ _ => 7) =
      { config_warning := true,
        speakers := ["A", "B"],
        basenames := ["u1"],
        scanned := false,
        max_seq_length := none } := by
  rfl

/-- Claim C9 amended: the configuration error is reported (the message is
printed) but construction proceeds: the speakers and basenames files are
parsed, the instance is fully constructed, and `max_seq_length` keeps the
provided non-integer value; the dataset is not scanned only because
`shortseq` is true routes around `find_longest_sequence`. -/
theorem C9_config_error_reported (speakersLines basenamesLines : List String)
    (frameCount : String → String → ℕ) :
    Seq2SeqDatatable.init true none speakersLines basenamesLines frameCount =
      { config_warning := true,
        speakers := speakersLines,
        basenames := basenamesLines,
        scanned := false,
        max_seq_length := none } := by
  rfl

/-! ### Claim C4: the normalization feature block -/

/-- Concrete parse result falsifying C4: one frame with raw voicing 3
(voiced flag 1), interpolated pitch 2 and interpolated voicing 7. -/
def cexC4 : SideFiles :=
  { mcp := [List.replicate 40 0],
    f0 := [[1]],
    f0_i := [[2]],
    vf := [[3]],
    vf_i := [[7]] }

/-- Claim C4 fails on the code: at this concrete triple (`L = 1`), the
per-frame voiced flag is 1 and sits in column 42 of the source tensor, while
the first 42 columns — the block the statistics are computed over — contain
no 1 at all, so the voiced-flag column is not among the statistics columns;
moreover the claimed composition acoustic + pitch + voicing + voiced flag is
43 columns wide, not 42. -/
theorem C4_counterexample :
    voicedFlag cexC4.vf = [[1]] ∧
    colAt 42 (sourceParams 1 0 1 cexC4) = [1] ∧
    ((sourceParams 1 0 1 cexC4).map (List.take 42)).flatten.count 1 = 0 ∧
    (colMax (mask_data ((sourceParams 1 0 1 cexC4).map (List.take 42))
        (zerosMat (1 - 1) 1 ++ onesMat 1 1))).count 1 = 0 ∧
    matWidth ((sourceParams 1 0 1 cexC4).map (List.take 42)) = 42 ∧
    matWidth (hconcatAll
      [zero_pad_params 1 "src" cexC4.mcp,
       zero_pad_params 1 "src" cexC4.f0_i,
       zero_pad_params 1 "src" cexC4.vf_i,
       zero_pad_params 1 "src" (voicedFlag cexC4.vf)]) = 43 := by
  have hside : SideOK 1 cexC4 := by decide
  obtain ⟨-, -, hblk, hc42, -⟩ :=
    @sourceParams_structure 1 1 0 1 cexC4 hside (by decide) (by decide)
  have hv : voicedFlag cexC4.vf = [[1]] := by
    norm_num [voicedFlag, cexC4, kronecker_delta]
  refine ⟨hv, ?_, ?_, ?_, ?_, ?_⟩
  · rw [hc42, hv]
    decide
  · rw [hblk]
    decide
  · rw [hblk]
    decide
  · rw [hblk]
    decide
  · have hv2 := hv
    rw [hconcatAll, List.foldl_cons, List.foldl_cons, List.foldl_cons,
        List.foldl_nil, hv]
    decide

/-- Claim C4 amended: the normalization-relevant feature block — the first 42
columns of the source tensor, the block `spk_max` / `spk_min` are computed
over — consists of the acoustic parameters (40 columns), the interpolated
pitch (1) and the interpolated voicing (1); the per-frame voiced flag
occupies column 42, immediately after the block, and is therefore not among
the statistics columns. -/
theorem C4_feature_block {L m si ti : ℕ} {src : SideFiles}
    (hs : SideOK m src) (hm1 : 1 ≤ m) (hmL : m ≤ L) :
    (sourceParams L si ti src).map (List.take 42) =
      hconcat (hconcat (zero_pad_params L "src" src.mcp)
        (zero_pad_params L "src" src.f0_i)) (zero_pad_params L "src" src.vf_i) ∧
    colAt 42 (sourceParams L si ti src) =
      colAt 0 (zero_pad_params L "src" (voicedFlag src.vf)) := by
  obtain ⟨-, -, h1, h2, -⟩ := @sourceParams_structure L m si ti src hs hm1 hmL
  exact ⟨h1, h2⟩

theorem C4_feature_block_witness :
    SideOK 3 exSide ∧ (1 : ℕ) ≤ 3 ∧ (3 : ℕ) ≤ 5 ∧
    ((sourceParams 5 0 1 exSide).map (List.take 42) =
      hconcat (hconcat (zero_pad_params 5 "src" exSide.mcp)
        (zero_pad_params 5 "src" exSide.f0_i)) (zero_pad_params 5 "src" exSide.vf_i) ∧
    colAt 42 (sourceParams 5 0 1 exSide) =
      colAt 0 (zero_pad_params 5 "src" (voicedFlag exSide.vf))) :=
  ⟨by decide, by decide, by decide,
   @C4_feature_block 5 3 0 1 exSide (by decide) (by decide) (by decide)⟩

/-! ### Masked selection and column extrema -/

lemma mask_data_ones : ∀ {P : Mat} {b : ℕ}, P.length = b →
    mask_data P (onesMat b 1) = P := by
  intro P
  induction P with
  | nil => intro b _; simp [mask_data]
  | cons p ps ih =>
    intro b hb
    cases b with
    | zero => simp at hb
    | succ b =>
      have hb' : ps.length = b := by simp at hb; omega
      have h2 := ih hb'
      norm_num [mask_data, onesMat, List.replicate_succ, List.filterMap_cons] at h2 ⊢
      exact h2

lemma mask_data_front : ∀ (a : ℕ) {P : Mat} {b : ℕ}, P.length = a + b →
    mask_data P (zerosMat a 1 ++ onesMat b 1) = P.drop a := by
  intro a
  induction a with
  | zero =>
    intro P b h
    simp only [zerosMat, List.replicate_zero, List.nil_append, List.drop_zero]
    exact mask_data_ones (by omega)
  | succ a ih =>
    intro P b h
    cases P with
    | nil => simp only [List.length_nil] at h; omega
    | cons p ps =>
      have h' : ps.length = a + b := by simp at h; omega
      have h2 := ih h'
      norm_num [mask_data, zerosMat, onesMat, List.replicate_succ, List.filterMap_cons] at h2 ⊢
      exact h2

lemma length_foldl_zipWith (f : ℚ → ℚ → ℚ) :
    ∀ (rs : List (List ℚ)) (r : List ℚ), (∀ x ∈ rs, x.length = r.length) →
      (rs.foldl (List.zipWith f) r).length = r.length := by
  intro rs
  induction rs with
  | nil => intro r _; rfl
  | cons x xs ih =>
    intro r hx
    rw [List.foldl_cons]
    have h1 : (List.zipWith f r x).length = r.length := by
      rw [List.length_zipWith, hx x (by simp)]
      omega
    rw [ih _ (fun y hy => by rw [hx y (by simp [hy]), h1]), h1]

lemma colMax_length {w : ℕ} {A : Mat} (hA : isMat w A) (hne : A ≠ []) :
    (colMax A).length = w := by
  cases A with
  | nil => exact absurd rfl hne
  | cons r rs =>
    rw [colMax, length_foldl_zipWith _ _ _
      (fun x hx => by rw [hA x (by simp [hx]), hA r (by simp)]),
      hA r (by simp)]

lemma colMin_length {w : ℕ} {A : Mat} (hA : isMat w A) (hne : A ≠ []) :
    (colMin A).length = w := by
  cases A with
  | nil => exact absurd rfl hne
  | cons r rs =>
    rw [colMin, length_foldl_zipWith _ _ _
      (fun x hx => by rw [hA x (by simp [hx]), hA r (by simp)]),
      hA r (by simp)]

lemma getD_zipWith (f : ℚ → ℚ → ℚ) :
    ∀ (a b : List ℚ) (j : ℕ), j < a.length → j < b.length →
      (List.zipWith f a b).getD j 0 = f (a.getD j 0) (b.getD j 0) := by
  intro a
  induction a with
  | nil => intro b j h _; simp at h
  | cons x xs ih =>
    intro b j h1 h2
    cases b with
    | nil => simp at h2
    | cons y ys =>
      cases j with
      | zero => simp
      | succ j =>
        simp only [List.zipWith_cons_cons, List.getD_cons_succ]
        exact ih ys j (by simpa using h1) (by simpa using h2)

lemma getD_set_self : ∀ {l : Mat} {i : ℕ} (x : List ℚ), i < l.length →
    (l.set i x).getD i [] = x := by
  intro l
  induction l with
  | nil => intro i x h; simp at h
  | cons a as ih =>
    intro i x h
    cases i with
    | zero => rfl
    | succ i => exact ih x (by simpa using h)

lemma getD_set_ne : ∀ {l : Mat} {i s : ℕ} (x : List ℚ), i ≠ s →
    (l.set i x).getD s [] = l.getD s [] := by
  intro l
  induction l with
  | nil => intro i s x _; simp
  | cons a as ih =>
    intro i s x h
    cases i with
    | zero =>
      cases s with
      | zero => exact absurd rfl h
      | succ s => rfl
    | succ i =>
      cases s with
      | zero => rfl
      | succ s =>
        simp only [List.set_cons_succ, List.getD_cons_succ]
        exact ih x (by omega)

/-! ### Pointwise order helpers -/

lemma forall₂_le_refl : ∀ (r : List ℚ), List.Forall₂ (· ≤ ·) r r := by
  intro r
  induction r with
  | nil => exact List.Forall₂.nil
  | cons a as ih => exact List.Forall₂.cons le_rfl ih

lemma matLE_refl (A : Mat) : matLE A A := by
  induction A with
  | nil => exact List.Forall₂.nil
  | cons r rs ih => exact List.Forall₂.cons (forall₂_le_refl r) ih

lemma forall₂_le_zipWith_max :
    ∀ (a b : List ℚ), a.length ≤ b.length →
      List.Forall₂ (· ≤ ·) a (List.zipWith max a b) := by
  intro a
  induction a with
  | nil => intro b _; exact List.Forall₂.nil
  | cons x xs ih =>
    intro b h
    cases b with
    | nil => simp at h
    | cons y ys =>
      exact List.Forall₂.cons (le_max_left x y) (ih ys (by simpa using h))

lemma forall₂_zipWith_min_le :
    ∀ (a b : List ℚ), a.length ≤ b.length →
      List.Forall₂ (· ≤ ·) (List.zipWith min a b) a := by
  intro a
  induction a with
  | nil => intro b _; exact List.Forall₂.nil
  | cons x xs ih =>
    intro b h
    cases b with
    | nil => simp at h
    | cons y ys =>
      exact List.Forall₂.cons (min_le_left x y) (ih ys (by simpa using h))

lemma matLE_set_right :
    ∀ {l : Mat} {i : ℕ} {x : List ℚ},
      (i < l.length → List.Forall₂ (· ≤ ·) (l.getD i []) x) →
      matLE l (l.set i x) := by
  intro l
  induction l with
  | nil => intro i x _; exact List.Forall₂.nil
  | cons a as ih =>
    intro i x h
    cases i with
    | zero => exact List.Forall₂.cons (h (by simp)) (matLE_refl as)
    | succ i =>
      exact List.Forall₂.cons (forall₂_le_refl a)
        (ih fun hi => h (by simpa using hi))

lemma matLE_set_left :
    ∀ {l : Mat} {i : ℕ} {x : List ℚ},
      (i < l.length → List.Forall₂ (· ≤ ·) x (l.getD i [])) →
      matLE (l.set i x) l := by
  intro l
  induction l with
  | nil => intro i x _; exact List.Forall₂.nil
  | cons a as ih =>
    intro i x h
    cases i with
    | zero => exact List.Forall₂.cons (h (by simp)) (matLE_refl as)
    | succ i =>
      exact List.Forall₂.cons (forall₂_le_refl a)
        (ih fun hi => h (by simpa using hi))

/-! ### One fold step of the loop nest -/

/-- The state produced by a successful loop iteration, as a function of the
built file table `out = (sp, sm, tp, tm)`. -/
def stepState (st : FoldState) (tr : ℕ × ℕ × ℕ) (out : Mat × Mat × Mat × Mat) :
    FoldState :=
  { srcTable := st.srcTable ++ [out.1],
    trgTable := st.trgTable ++ [out.2.2.1],
    srcMasks := st.srcMasks ++ [out.2.1],
    trgMasks := st.trgMasks ++ [out.2.2.2],
    spkMax := st.spkMax.set tr.1
      (List.zipWith max (st.spkMax.getD tr.1 [])
        (colMax (mask_data (out.1.map (List.take 42)) out.2.1))),
    spkMin := st.spkMin.set tr.1
      (List.zipWith min (st.spkMin.getD tr.1 [])
        (colMin (mask_data (out.1.map (List.take 42)) out.2.1))) }

lemma foldStep_eq_some {L : ℕ} {speakers basenames : List String}
    {files : String → String → SideFiles} (st : FoldState) {tr : ℕ × ℕ × ℕ}
    {out : Mat × Mat × Mat × Mat}
    (hb : seq2seq_build_file_table L
        (files (speakers.getD tr.1 "") (basenames.getD tr.2.2 "")) tr.1
        (files (speakers.getD tr.2.1 "") (basenames.getD tr.2.2 "")) tr.2.1 =
      some out)
    (hne : mask_data (out.1.map (List.take 42)) out.2.1 ≠ [])
    (hlen : (colMax (mask_data (out.1.map (List.take 42)) out.2.1)).length = 42) :
    foldStep L speakers basenames files st tr = some (stepState st tr out) := by
  rw [foldStep, hb, Option.some_bind]
  simp only []
  rw [if_neg (not_or.mpr ⟨hne, fun hx => hx hlen⟩)]
  rfl

lemma foldStep_some {L : ℕ} {speakers basenames : List String}
    {files : String → String → SideFiles} {st st' : FoldState}
    {tr : ℕ × ℕ × ℕ}
    (h : foldStep L speakers basenames files st tr = some st') :
    ∃ out,
      seq2seq_build_file_table L
          (files (speakers.getD tr.1 "") (basenames.getD tr.2.2 "")) tr.1
          (files (speakers.getD tr.2.1 "") (basenames.getD tr.2.2 "")) tr.2.1 =
        some out ∧
      mask_data (out.1.map (List.take 42)) out.2.1 ≠ [] ∧
      (colMax (mask_data (out.1.map (List.take 42)) out.2.1)).length = 42 ∧
      st' = stepState st tr out := by
  cases hb : seq2seq_build_file_table L
      (files (speakers.getD tr.1 "") (basenames.getD tr.2.2 "")) tr.1
      (files (speakers.getD tr.2.1 "") (basenames.getD tr.2.2 "")) tr.2.1 with
  | none => rw [foldStep, hb, Option.none_bind] at h; exact absurd h (by simp)
  | some out =>
    rw [foldStep, hb, Option.some_bind] at h
    simp only [] at h
    by_cases hc : mask_data (out.1.map (List.take 42)) out.2.1 = [] ∨
        (colMax (mask_data (out.1.map (List.take 42)) out.2.1)).length ≠ 42
    · rw [if_pos hc] at h
      exact absurd h (by simp)
    · rw [if_neg hc] at h
      obtain ⟨h1, h2⟩ := not_or.mp hc
      exact ⟨out, rfl, h1, not_ne_iff.mp h2, (Option.some_inj.mp h).symm⟩

lemma getD_mem : ∀ {l : Mat} {i : ℕ}, i < l.length → l.getD i [] ∈ l := by
  intro l
  induction l with
  | nil => intro i h; simp at h
  | cons a as ih =>
    intro i h
    cases i with
    | zero => simp
    | succ i => exact List.mem_cons_of_mem a (ih (by simpa using h))

lemma length_foldl_zipWith_congr (f g : ℚ → ℚ → ℚ) :
    ∀ (rs : List (List ℚ)) (r1 r2 : List ℚ), r1.length = r2.length →
      (rs.foldl (List.zipWith f) r1).length =
        (rs.foldl (List.zipWith g) r2).length := by
  intro rs
  induction rs with
  | nil => intro r1 r2 h; simpa using h
  | cons x xs ih =>
    intro r1 r2 h
    rw [List.foldl_cons, List.foldl_cons]
    exact ih _ _ (by rw [List.length_zipWith, List.length_zipWith, h])

lemma colMin_length_eq_colMax (A : Mat) :
    (colMin A).length = (colMax A).length := by
  cases A with
  | nil => rfl
  | cons r rs => exact length_foldl_zipWith_congr min max rs r r rfl

/-- Claim C6: each loop iteration of `seq2seq_construct_datatable`
monotonically tightens the statistics: every entry of `spk_max` after the
fold is `≥` its value before, and every entry of `spk_min` is `≤` its value
before (the statistics matrices being rectangular of width 42, as
established at initialization). -/
theorem C6_stats_monotone (L : ℕ) (speakers basenames : List String)
    (files : String → String → SideFiles) (st st' : FoldState)
    (tr : ℕ × ℕ × ℕ) (hmax : isMat 42 st.spkMax) (hmin : isMat 42 st.spkMin)
    (h : foldStep L speakers basenames files st tr = some st') :
    matLE st.spkMax st'.spkMax ∧ matLE st'.spkMin st.spkMin := by
  obtain ⟨out, hb, hne, hlen, rfl⟩ := foldStep_some h
  constructor
  · refine matLE_set_right fun hi => ?_
    refine forall₂_le_zipWith_max _ _ ?_
    rw [hmax _ (getD_mem hi), hlen]
  · refine matLE_set_left fun hi => ?_
    refine forall₂_zipWith_min_le _ _ ?_
    rw [hmin _ (getD_mem hi), colMin_length_eq_colMax, hlen]

/-- All (speaker, basename) lookups in the witnesses resolve to the same
well-formed parse result. -/
def exFls : String → String → SideFiles := fun _ _ => exSide

theorem C6_stats_monotone_witness :
    isMat 42 initState.spkMax ∧ isMat 42 initState.spkMin ∧
    ∃ st', foldStep 5 ["A", "B"] ["u1"] exFls initState (0, 1, 0) = some st' ∧
      matLE initState.spkMax st'.spkMax ∧ matLE st'.spkMin initState.spkMin := by
  have hs : (foldStep 5 ["A", "B"] ["u1"] exFls initState (0, 1, 0)).isSome = true := by
    decide
  have heq := (Option.some_get hs).symm
  have hmono := C6_stats_monotone 5 ["A", "B"] ["u1"] exFls initState _ (0, 1, 0)
    (by decide) (by decide) heq
  exact ⟨by decide, by decide, _, heq, hmono.1, hmono.2⟩

/-! ### The loop nest as a fold over the triple list -/

lemma mem_tripleList {S U : ℕ} {tr : ℕ × ℕ × ℕ} (h : tr ∈ tripleList S U) :
    tr.1 < S ∧ tr.2.1 < S ∧ tr.2.2 < U := by
  simp only [tripleList, List.mem_flatMap, List.mem_map, List.mem_range] at h
  obtain ⟨i, hi, j, hj, k, hk, rfl⟩ := h
  exact ⟨hi, hj, hk⟩

lemma length_tripleList (S U : ℕ) : (tripleList S U).length = S * S * U := by
  rw [tripleList]
  simp only [List.length_flatMap, Function.comp_def, List.length_map,
    List.length_range, List.map_const', List.sum_replicate, smul_eq_mul]
  ring

lemma foldlM_foldStep_accum (L : ℕ) (speakers basenames : List String)
    (files : String → String → SideFiles)
    (G : ℕ × ℕ × ℕ → Mat × Mat × Mat × Mat) :
    ∀ (ts : List (ℕ × ℕ × ℕ)) (st : FoldState),
      (∀ tr ∈ ts,
        seq2seq_build_file_table L
            (files (speakers.getD tr.1 "") (basenames.getD tr.2.2 "")) tr.1
            (files (speakers.getD tr.2.1 "") (basenames.getD tr.2.2 "")) tr.2.1 =
          some (G tr) ∧
        mask_data ((G tr).1.map (List.take 42)) (G tr).2.1 ≠ [] ∧
        (colMax (mask_data ((G tr).1.map (List.take 42)) (G tr).2.1)).length = 42) →
      ∃ st', List.foldlM (foldStep L speakers basenames files) st ts = some st' ∧
        st'.srcTable = st.srcTable ++ ts.map (fun tr => (G tr).1) ∧
        st'.srcMasks = st.srcMasks ++ ts.map (fun tr => (G tr).2.1) ∧
        st'.trgTable = st.trgTable ++ ts.map (fun tr => (G tr).2.2.1) ∧
        st'.trgMasks = st.trgMasks ++ ts.map (fun tr => (G tr).2.2.2) := by
  intro ts
  induction ts with
  | nil =>
    intro st _
    exact ⟨st, rfl, by simp, by simp, by simp, by simp⟩
  | cons tr ts ih =>
    intro st h
    obtain ⟨hb, hne, hlen⟩ := h tr (by simp)
    have hstep := foldStep_eq_some st hb hne hlen
    obtain ⟨st', hfold, h1, h2, h3, h4⟩ :=
      ih (stepState st tr (G tr)) (fun x hx => h x (by simp [hx]))
    refine ⟨st', ?_, ?_, ?_, ?_, ?_⟩
    · rw [List.foldlM_cons, hstep]
      simpa using hfold
    · rw [h1]
      simp [stepState]
    · rw [h2]
      simp [stepState]
    · rw [h3]
      simp [stepState]
    · rw [h4]
      simp [stepState]

/-- Claim C7: `seq2seq_construct_datatable` iterates the full cross product
speakers × speakers × utterances — including the pairs with source ordinal
equal to target ordinal — in the fixed order given by `tripleList` (source
ordinal ascending, then target ordinal ascending, then utterance position in
list order); given that every `seq2seq_build_file_table` call returns
`F i j k` (and its masked feature block is non-degenerate), the returned
stacked tensors and masks are exactly the `S·S·U` per-triple results appended
in that order, with each stacked mask flattened into a row of length `L`. -/
theorem C7_iteration_order (L : ℕ) (speakers basenames : List String)
    (files : String → String → SideFiles)
    (F : ℕ → ℕ → ℕ → Mat × Mat × Mat × Mat)
    (hF : ∀ i < speakers.length, ∀ j < speakers.length, ∀ k < basenames.length,
      seq2seq_build_file_table L
          (files (speakers.getD i "") (basenames.getD k "")) i
          (files (speakers.getD j "") (basenames.getD k "")) j = some (F i j k))
    (hG : ∀ i < speakers.length, ∀ j < speakers.length, ∀ k < basenames.length,
      mask_data ((F i j k).1.map (List.take 42)) (F i j k).2.1 ≠ [] ∧
      (colMax (mask_data ((F i j k).1.map (List.take 42))
        (F i j k).2.1)).length = 42) :
    ∃ mx mn,
      seq2seq_construct_datatable L speakers basenames files =
        some ((tripleList speakers.length basenames.length).map
                (fun tr => (F tr.1 tr.2.1 tr.2.2).1),
              (tripleList speakers.length basenames.length).map
                (fun tr => ((F tr.1 tr.2.1 tr.2.2).2.1).flatten),
              (tripleList speakers.length basenames.length).map
                (fun tr => (F tr.1 tr.2.1 tr.2.2).2.2.1),
              (tripleList speakers.length basenames.length).map
                (fun tr => ((F tr.1 tr.2.1 tr.2.2).2.2.2).flatten),
              mx, mn) ∧
      (tripleList speakers.length basenames.length).length =
        speakers.length * speakers.length * basenames.length := by
  obtain ⟨st', hfold, h1, h2, h3, h4⟩ :=
    foldlM_foldStep_accum L speakers basenames files
      (fun tr => F tr.1 tr.2.1 tr.2.2)
      (tripleList speakers.length basenames.length) initState
      (fun tr htr => by
        obtain ⟨hi, hj, hk⟩ := mem_tripleList htr
        exact ⟨hF tr.1 hi tr.2.1 hj tr.2.2 hk, hG tr.1 hi tr.2.1 hj tr.2.2 hk⟩)
  refine ⟨st'.spkMax, st'.spkMin, ?_, length_tripleList _ _⟩
  rw [seq2seq_construct_datatable, hfold, Option.map_some']
  rw [h1, h2, h3, h4]
  simp only [initState, List.nil_append, List.map_map, Function.comp_def]

/-- The per-triple build results of the witness scenario: 2 speakers, one
utterance, `L = 5`, all sides 3 frames of `exSide` data. -/
def exF7 : ℕ → ℕ → ℕ → Mat × Mat × Mat × Mat := fun i j _ =>
  (sourceParams 5 i j exSide,
   zerosMat (5 - 3) 1 ++ onesMat 3 1,
   targetParams 5 exSide,
   onesMat 3 1 ++ zerosMat (5 - 3) 1)

theorem C7_iteration_order_witness :
    (∀ i < 2, ∀ j < 2, ∀ k < 1,
      seq2seq_build_file_table 5
          (exFls ((["A", "B"] : List String).getD i "")
            ((["u1"] : List String).getD k "")) i
          (exFls ((["A", "B"] : List String).getD j "")
            ((["u1"] : List String).getD k "")) j = some (exF7 i j k)) ∧
    (∀ i < 2, ∀ j < 2, ∀ k < 1,
      mask_data ((exF7 i j k).1.map (List.take 42)) (exF7 i j k).2.1 ≠ [] ∧
      (colMax (mask_data ((exF7 i j k).1.map (List.take 42))
        (exF7 i j k).2.1)).length = 42) ∧
    (∃ mx mn,
      seq2seq_construct_datatable 5 ["A", "B"] ["u1"] exFls =
        some ((tripleList 2 1).map (fun tr => (exF7 tr.1 tr.2.1 tr.2.2).1),
              (tripleList 2 1).map
                (fun tr => ((exF7 tr.1 tr.2.1 tr.2.2).2.1).flatten),
              (tripleList 2 1).map (fun tr => (exF7 tr.1 tr.2.1 tr.2.2).2.2.1),
              (tripleList 2 1).map
                (fun tr => ((exF7 tr.1 tr.2.1 tr.2.2).2.2.2).flatten),
              mx, mn) ∧
      (tripleList 2 1).length = 2 * 2 * 1) := by
  have hF : ∀ i < 2, ∀ j < 2, ∀ k < 1,
      seq2seq_build_file_table 5
          (exFls ((["A", "B"] : List String).getD i "")
            ((["u1"] : List String).getD k "")) i
          (exFls ((["A", "B"] : List String).getD j "")
            ((["u1"] : List String).getD k "")) j = some (exF7 i j k) := by
    intro i hi j hj k hk
    exact @build_eq_some 5 3 3 i j exSide exSide (by decide) (by decide)
      (by decide) (by decide) (by decide) (by decide) (by omega) (by omega)
  have hG : ∀ i < 2, ∀ j < 2, ∀ k < 1,
      mask_data ((exF7 i j k).1.map (List.take 42)) (exF7 i j k).2.1 ≠ [] ∧
      (colMax (mask_data ((exF7 i j k).1.map (List.take 42))
        (exF7 i j k).2.1)).length = 42 := by
    decide
  exact ⟨hF, hG, C7_iteration_order 5 ["A", "B"] ["u1"] exFls exF7 hF hG⟩

/-! ### Claim C10: rows of the statistics matrices beyond the speaker count -/

lemma foldlM_untouched (L : ℕ) (speakers basenames : List String)
    (files : String → String → SideFiles) :
    ∀ (ts : List (ℕ × ℕ × ℕ)) (st st' : FoldState),
      (∀ tr ∈ ts, tr.1 < speakers.length) →
      List.foldlM (foldStep L speakers basenames files) st ts = some st' →
      st'.spkMax.length = st.spkMax.length ∧
      st'.spkMin.length = st.spkMin.length ∧
      ∀ s, speakers.length ≤ s →
        st'.spkMax.getD s [] = st.spkMax.getD s [] ∧
        st'.spkMin.getD s [] = st.spkMin.getD s [] := by
  intro ts
  induction ts with
  | nil =>
    intro st st' _ h
    obtain rfl : st = st' := by simpa using h
    exact ⟨rfl, rfl, fun s _ => ⟨rfl, rfl⟩⟩
  | cons tr ts ih =>
    intro st st' hts h
    rw [List.foldlM_cons] at h
    cases hstep : foldStep L speakers basenames files st tr with
    | none => rw [hstep] at h; simp at h
    | some st1 =>
      rw [hstep] at h
      have h' : List.foldlM (foldStep L speakers basenames files) st1 ts =
          some st' := h
      obtain ⟨l1, l2, hu⟩ := ih st1 st' (fun x hx => hts x (by simp [hx])) h'
      obtain ⟨out, -, -, -, rfl⟩ := foldStep_some hstep
      have htr1 : tr.1 < speakers.length := hts tr (by simp)
      refine ⟨?_, ?_, fun s hs => ?_⟩
      · rw [l1]; simp [stepState]
      · rw [l2]; simp [stepState]
      · obtain ⟨hu1, hu2⟩ := hu s hs
        constructor
        · rw [hu1]
          exact getD_set_ne _ (by omega)
        · rw [hu2]
          exact getD_set_ne _ (by omega)

/-- Claim C10: whenever `seq2seq_construct_datatable` returns (with fewer
than 10 speakers), the statistics matrices keep their fixed 10 rows, and
every row with ordinal at least the speaker count is untouched by the fold:
`speakers_max` rows stay all zeros and `speakers_min` rows stay at the
`1e+50` sentinel in every one of their 42 columns. -/
theorem C10_untouched_rows (L : ℕ) (speakers basenames : List String)
    (files : String → String → SideFiles)
    (r : List Mat × Mat × List Mat × Mat × Mat × Mat)
    (_hS : speakers.length < 10)
    (h : seq2seq_construct_datatable L speakers basenames files = some r) :
    r.2.2.2.2.1.length = 10 ∧ r.2.2.2.2.2.length = 10 ∧
    ∀ s, speakers.length ≤ s → s < 10 →
      r.2.2.2.2.1.getD s [] = List.replicate 42 0 ∧
      r.2.2.2.2.2.getD s [] = List.replicate 42 sentinel := by
  rw [seq2seq_construct_datatable] at h
  obtain ⟨st', hfold, rfl⟩ := Option.map_eq_some'.mp h
  obtain ⟨l1, l2, hu⟩ := foldlM_untouched L speakers basenames files _
    initState st' (fun tr htr => (mem_tripleList htr).1) hfold
  refine ⟨?_, ?_, fun s hs hs10 => ?_⟩
  · show st'.spkMax.length = 10
    rw [l1]
    rfl
  · show st'.spkMin.length = 10
    rw [l2]
    rfl
  · obtain ⟨hu1, hu2⟩ := hu s hs
    constructor
    · show st'.spkMax.getD s [] = List.replicate 42 0
      rw [hu1]
      exact getD_replicate_of_lt hs10 _ _
    · show st'.spkMin.getD s [] = List.replicate 42 sentinel
      rw [hu2]
      exact getD_replicate_of_lt hs10 _ _

theorem C10_untouched_rows_witness :
    (["A", "B"] : List String).length < 10 ∧
    ∃ r, seq2seq_construct_datatable 5 ["A", "B"] ["u1"] exFls = some r ∧
      r.2.2.2.2.1.length = 10 ∧ r.2.2.2.2.2.length = 10 ∧
      r.2.2.2.2.1.getD 5 [] = List.replicate 42 0 ∧
      r.2.2.2.2.2.getD 5 [] = List.replicate 42 sentinel := by
  have hs : (seq2seq_construct_datatable 5 ["A", "B"] ["u1"] exFls).isSome = true := by
    decide
  have heq := (Option.some_get hs).symm
  obtain ⟨h1, h2, h3⟩ :=
    C10_untouched_rows 5 ["A", "B"] ["u1"] exFls _ (by decide) heq
  obtain ⟨h4, h5⟩ := h3 5 (by decide) (by decide)
  exact ⟨by decide, _, heq, h1, h2, h4, h5⟩

/-! ### Claim C5: the statistics row after a single fold -/

lemma isMat_map_take {w k : ℕ} {A : Mat} (h : isMat w A) (hk : k ≤ w) :
    isMat k (A.map (List.take k)) := by
  intro r hr
  simp only [List.mem_map] at hr
  obtain ⟨x, hx, rfl⟩ := hr
  rw [List.length_take, h x hx]
  omega

/-- Concrete parse result falsifying C5: 3 real frames whose mcp entries are
all `-1`. -/
def cexC5 : SideFiles :=
  { mcp := List.replicate 3 (List.replicate 40 (-1)),
    f0 := List.replicate 3 [1],
    f0_i := List.replicate 3 [1],
    vf := List.replicate 3 [1],
    vf_i := List.replicate 3 [1] }

/-- Claim C5 fails on the code: after `seq2seq_construct_datatable` folds the
single triple of the scenario speakers = ["A"], utterances = ["u1"],
`fixedLength = 5`, 3 real frames, entry (0, 0) of the returned
`speakers_max` is 0 — the zero initialization is never exceeded — while the
per-column maximum of the real (mask = 1) source rows' first 42 columns is
`-1` at column 0. -/
theorem C5_counterexample :
    ((seq2seq_construct_datatable 5 ["A"] ["u1"] (fun _ _ => cexC5)).map
      (fun r => (r.2.2.2.2.1.getD 0 []).getD 0 0)) = some 0 ∧
    (colMax (mask_data ((sourceParams 5 0 0 cexC5).map (List.take 42))
      (zerosMat (5 - 3) 1 ++ onesMat 3 1))).getD 0 0 = -1 ∧
    (0 : ℚ) ≠ -1 := by
  refine ⟨by decide, by decide, by decide⟩

/-- Claim C5 amended: after `seq2seq_construct_datatable` folds the single
triple of a one-speaker, one-utterance run, row 0 of the returned
`speakers_max` is, entry by entry, the maximum of the zero initialization
and the per-column maximum of the real (mask = 1) source rows' first 42
columns — and symmetrically row 0 of `speakers_min` is the minimum of the
`1e+50` sentinel and the per-column minimum.  (The claim's unclamped
equality holds exactly when no column maximum is negative and no column
minimum exceeds the sentinel.) -/
theorem C5_single_fold_stats (L m : ℕ) (A b : String)
    (files : String → String → SideFiles)
    (hs : SideOK m (files A b)) (hm1 : 1 ≤ m) (hmL : m ≤ L) :
    ∃ d1 m1 d2 m2 mx mn,
      seq2seq_construct_datatable L [A] [b] files =
        some (d1, m1, d2, m2, mx, mn) ∧
      ∀ j < 42,
        (mx.getD 0 []).getD j 0 =
          max 0 ((colMax (mask_data
            ((sourceParams L 0 0 (files A b)).map (List.take 42))
            (zerosMat (L - m) 1 ++ onesMat m 1))).getD j 0) ∧
        (mn.getD 0 []).getD j 0 =
          min sentinel ((colMin (mask_data
            ((sourceParams L 0 0 (files A b)).map (List.take 42))
            (zerosMat (L - m) 1 ++ onesMat m 1))).getD j 0) := by
  obtain ⟨hlenL, hw64, -, -, -⟩ := @sourceParams_structure L m 0 0 (files A b) hs hm1 hmL
  have hb := @build_eq_some L m m 0 0 (files A b) (files A b) hs hs hm1 hmL hm1 hmL
    (by omega) (by omega)
  have hmask : mask_data ((sourceParams L 0 0 (files A b)).map (List.take 42))
      (zerosMat (L - m) 1 ++ onesMat m 1) =
      ((sourceParams L 0 0 (files A b)).map (List.take 42)).drop (L - m) :=
    mask_data_front (L - m) (by rw [List.length_map, hlenL]; omega)
  have hmasked_len :
      (((sourceParams L 0 0 (files A b)).map (List.take 42)).drop (L - m)).length = m := by
    rw [List.length_drop, List.length_map, hlenL]
    omega
  have hne : mask_data ((sourceParams L 0 0 (files A b)).map (List.take 42))
      (zerosMat (L - m) 1 ++ onesMat m 1) ≠ [] := by
    rw [hmask]
    intro hcontra
    rw [hcontra] at hmasked_len
    simp at hmasked_len
    omega
  have hwm : isMat 42 (mask_data ((sourceParams L 0 0 (files A b)).map (List.take 42))
      (zerosMat (L - m) 1 ++ onesMat m 1)) := by
    rw [hmask]
    intro r hr
    exact isMat_map_take hw64 (by norm_num) r (List.mem_of_mem_drop hr)
  have hlen42 := colMax_length hwm hne
  have hlen42' : (colMin (mask_data ((sourceParams L 0 0 (files A b)).map (List.take 42))
      (zerosMat (L - m) 1 ++ onesMat m 1))).length = 42 := by
    rw [colMin_length_eq_colMax]
    exact hlen42
  have hstep := @foldStep_eq_some L [A] [b] files initState (0, 0, 0) _ hb hne hlen42
  have htl : tripleList ([A] : List String).length ([b] : List String).length =
      [(0, 0, 0)] := rfl
  rw [seq2seq_construct_datatable, htl, List.foldlM_cons, hstep]
  simp only [Option.some_bind, List.foldlM_nil, Option.map_some', Option.pure_def]
  refine ⟨_, _, _, _, _, _, rfl, fun j hj => ?_⟩
  have hrow0 : initState.spkMax.getD 0 [] = List.replicate 42 (0 : ℚ) := rfl
  have hrow0' : initState.spkMin.getD 0 [] = List.replicate 42 sentinel := rfl
  constructor
  · show ((initState.spkMax.set 0 _).getD 0 []).getD j 0 = _
    rw [getD_set_self _ (by decide), hrow0,
      getD_zipWith max _ _ j (by simpa using hj) (by rw [hlen42]; omega),
      getD_replicate_of_lt hj]
  · show ((initState.spkMin.set 0 _).getD 0 []).getD j 0 = _
    rw [getD_set_self _ (by decide), hrow0',
      getD_zipWith min _ _ j (by simpa using hj) (by rw [hlen42']; omega),
      getD_replicate_of_lt hj]

theorem C5_single_fold_stats_witness :
    SideOK 3 (exFls "A" "u1") ∧ (1 : ℕ) ≤ 3 ∧ (3 : ℕ) ≤ 5 ∧
    (∃ d1 m1 d2 m2 mx mn,
      seq2seq_construct_datatable 5 ["A"] ["u1"] exFls =
        some (d1, m1, d2, m2, mx, mn) ∧
      ∀ j < 42,
        (mx.getD 0 []).getD j 0 =
          max 0 ((colMax (mask_data
            ((sourceParams 5 0 0 (exFls "A" "u1")).map (List.take 42))
            (zerosMat (5 - 3) 1 ++ onesMat 3 1))).getD j 0) ∧
        (mn.getD 0 []).getD j 0 =
          min sentinel ((colMin (mask_data
            ((sourceParams 5 0 0 (exFls "A" "u1")).map (List.take 42))
            (zerosMat (5 - 3) 1 ++ onesMat 3 1))).getD j 0)) :=
  ⟨by decide, by decide, by decide,
   C5_single_fold_stats 5 3 "A" "u1" exFls (by decide) (by decide) (by decide)⟩

end Tfglib
